import Mathlib

/-!
Shallow embedding of the relational indexing and query subsystem of
`gvt_scripts` (`gvt_scripts/search_shp_dir/models.py` and
`gvt_scripts/search_shp_dir/core.py`).

Machine floats of the Python code are modelled as exact rationals (`ℚ`);
every numeric literal appearing in the claims is exactly representable, so
no rounding issue is hidden by this choice.  Python exceptions are
modelled with an explicit error type `PyErr`; the Python code raises
`ValueError` both for query-syntax problems and for unknown fields, the
constructors below keep the two message families apart.
-/

/-- Error values modelling the Python exceptions raised by the code.
`querySyntaxError` and `unknownFieldError` are both `ValueError` in the
source, distinguished there only by their message
(`"Invalid query: ... Hint ..."` vs `"Unknow field ..."`). -/
inductive PyErr where
  | querySyntaxError (query hint : String)
  | unknownFieldError (field : String)
  | valueError (msg : String)
  | validationError (msg : String)
  | typeError (msg : String)
  | nameError (name : String)
  | keyError (key : String)
  | emptySequenceError
  deriving DecidableEq, Repr

-- ===========================================================================
-- Python string and number helpers
-- ===========================================================================

/-- Split a character list at every occurrence of `c`, like Python
`str.split(c)` for a single-character separator: `"" ↦ [""]`,
`"a&" ↦ ["a", ""]`. -/
def splitOnCharAux (c : Char) : List Char → List (List Char)
  | [] => [[]]
  | x :: xs =>
    let r := splitOnCharAux c xs
    if x = c then [] :: r
    else
      match r with
      | [] => [[x]]
      | y :: ys => (x :: y) :: ys

/-- Python `s.split(c)` for a one-character separator `c`. -/
def pySplit (c : Char) (s : String) : List String :=
  (splitOnCharAux c s.toList).map List.asString

/-- Python `str.strip()`: remove leading and trailing whitespace. -/
def pyStrip (s : String) : String :=
  (((s.toList.dropWhile Char.isWhitespace).reverse.dropWhile
      Char.isWhitespace).reverse).asString

/-- Python `s.replace(old, new, 1)` for one-character `old`/`new`: replace
only the first occurrence (the form used by the source for decimal-comma
normalisation). -/
def pyReplaceOnce (old new : Char) : List Char → List Char
  | [] => []
  | x :: xs => if x = old then new :: xs else x :: pyReplaceOnce old new xs

/-- String version of `pyReplaceOnce`. -/
def pyReplace1 (s : String) (old new : Char) : String :=
  (pyReplaceOnce old new s.toList).asString

/-- Parse an optional sign, returning the sign as `1` or `-1` together with
the remaining characters. -/
def pySign : List Char → Int × List Char
  | '+' :: cs => (1, cs)
  | '-' :: cs => (-1, cs)
  | cs => (1, cs)

/-- Models Python `int(s)` on a plain decimal string: optional surrounding
whitespace, optional sign, one or more digits.  (Python also accepts
underscores between digits and other bases; nothing in this code base or
these claims uses them.) -/
def pyInt (s : String) : Except PyErr Int :=
  let cs := (pyStrip s).toList
  let (sgn, cs) := pySign cs
  if cs = [] then .error (.valueError ("invalid literal for int: " ++ s))
  else if cs.all Char.isDigit then
    .ok (sgn * (cs.foldl (fun a c => a * 10 + (c.toNat - 48)) 0 : Nat))
  else .error (.valueError ("invalid literal for int: " ++ s))

/-- Models Python `float(s)` on a plain decimal string: optional
surrounding whitespace, optional sign, digits with an optional single
decimal point (at least one digit overall).  Exponents and the special
values `nan`/`inf` are outside the scope of every claim and are rejected;
the result is the exact rational value of the decimal literal. -/
def pyFloat (s : String) : Except PyErr ℚ :=
  let cs := (pyStrip s).toList
  let (sgn, cs) := pySign cs
  let intPart := cs.takeWhile Char.isDigit
  let rest := cs.drop intPart.length
  let parsed : Option ℚ :=
    match rest with
    | [] =>
      if intPart = [] then none
      else some ((intPart.foldl (fun a c => a * 10 + (c.toNat - 48)) 0 : Nat) : ℚ)
    | '.' :: frac =>
      if frac.all Char.isDigit ∧ (intPart ≠ [] ∨ frac ≠ []) then
        let ip : Nat := intPart.foldl (fun a c => a * 10 + (c.toNat - 48)) 0
        let fp : Nat := frac.foldl (fun a c => a * 10 + (c.toNat - 48)) 0
        some ((ip : ℚ) + (fp : ℚ) / (10 ^ frac.length : ℚ))
      else none
    | _ => none
  match parsed with
  | some q => .ok ((sgn : ℚ) * q)
  | none => .error (.valueError ("could not convert string to float: " ++ s))

-- ===========================================================================
-- Data model: the five entity kinds of the fixed schema
-- ===========================================================================

/-- The five peewee models declared by `Database`:
`MetaDataDirectory`, `DBFRecord`, `PRJ`, `CoordinateSystemAxisEntry`,
`JGW`. -/
inductive Kind where
  | mdd | dbf | prj | axis | jgw
  deriving DecidableEq, Repr

instance : Fintype Kind where
  elems := {Kind.mdd, Kind.dbf, Kind.prj, Kind.axis, Kind.jgw}
  complete := by intro x; cases x <;> decide

/-- Row of `MetaDataDirectory` (`MetaDataDirectoryMixin`): unique
`date_str` key plus the stored path.  `created_at`/`updated_at` come from
`DateableABC`; the claims never inspect them, they are carried as plain
naturals. -/
structure MDDRow where
  id : Nat
  date_str : String
  path_str : String
  created_at : Nat := 0
  updated_at : Nat := 0
  deriving DecidableEq, Repr

/-- Row of `DBFRecord` (`DBFRecordMixin`), one attribute-table record.
`md_directory` is the foreign key to `MetaDataDirectory`.  `acquisitio`
is nullable (`DateField(null=True)`), kept as its raw text. -/
structure DBFRow where
  id : Nat
  md_directory : Nat
  batch : String
  tarsize : Int
  satellite : String
  sensorid : String
  acquisitio : Option String
  cloudperce : ℚ
  orbitid : Int
  scenepath : Int
  scenerow : Int
  created_at : Nat := 0
  updated_at : Nat := 0
  deriving DecidableEq, Repr

/-- Row of `PRJ` (`PRJMixin`), the projection descriptor of a directory. -/
structure PRJRow where
  id : Nat
  md_directory : Nat
  schema : String
  type : String
  name : String
  datum_type : String
  datum_name : String
  datum_ellipsoid_name : String
  datum_ellipsoid_semi_major_axis : Int
  datum_ellipsoid_inverse_flattening : ℚ
  datum_id_authority : String
  datum_id_code : Int
  coordinate_system_subtype : String
  created_at : Nat := 0
  updated_at : Nat := 0
  deriving DecidableEq, Repr

/-- Row of `CoordinateSystemAxisEntry` (`CoordinateSystemAxisEntryMixin`);
`prj` is the foreign key to `PRJ`. -/
structure AxisRow where
  id : Nat
  prj : Nat
  name : String
  abbreviation : String
  direction : String
  unit_type : String
  unit_name : String
  unit_conversion_factor : ℚ
  created_at : Nat := 0
  updated_at : Nat := 0
  deriving DecidableEq, Repr

/-- Row of `JGW` (`JGWMixin`), one georeferencing file with its paired
image path and the six affine parameters. -/
structure JGWRow where
  id : Nat
  md_directory : Nat
  path : String
  jpg : String
  scale_x : ℚ
  rotation_y : ℚ
  rotation_x : ℚ
  scale_y : ℚ
  upper_left_x : ℚ
  upper_left_y : ℚ
  created_at : Nat := 0
  updated_at : Nat := 0
  deriving DecidableEq, Repr

/-- The SQLite store behind a `Database` instance: one table per model,
rows in insertion (rowid) order. -/
structure Store where
  mdds : List MDDRow := []
  dbfs : List DBFRow := []
  prjs : List PRJRow := []
  axes : List AxisRow := []
  jgws : List JGWRow := []
  deriving DecidableEq, Repr

/-- Fresh rowid for an insert, modelling SQLite's default assignment
(one more than the largest rowid in the table). -/
def nextId (ids : List Nat) : Nat :=
  ids.foldl max 0 + 1

-- ===========================================================================
-- Paths (the fragment of `pathlib.Path` the code uses)
-- ===========================================================================

/-- A filesystem path as its list of components; `pathlib.Path` is only
used by the code through `parent`, `name`, `with_suffix` and `str`. -/
structure PyPath where
  parts : List String
  deriving DecidableEq, Repr

/-- Textual form of a path (`str(path)`), components joined by `/`. -/
def PyPath.str (p : PyPath) : String :=
  "/".intercalate p.parts

/-- `path.parent`: the path without its final component. -/
def PyPath.parent (p : PyPath) : PyPath :=
  ⟨p.parts.dropLast⟩

/-- `path.name`: the final component (empty for the empty path). -/
def PyPath.name (p : PyPath) : String :=
  (p.parts.getLast?).getD ""

/-- `path.with_suffix("." ++ ext)`: replace the extension of the final
component (the part after its last dot), or append one when the
component has no dot. -/
def PyPath.with_suffix (p : PyPath) (ext : String) : PyPath :=
  let base := p.name
  let pieces := pySplit '.' base
  let stem :=
    if pieces.length ≤ 1 then base
    else ".".intercalate pieces.dropLast
  ⟨p.parent.parts ++ [stem ++ "." ++ ext]⟩

-- ===========================================================================
-- Field catalog (`Database.get_searcheable_fields`)
-- ===========================================================================

/-- Value type of a searchable field: peewee `CharField`,
`IntegerField`, `FloatField` or `DateField`. -/
inductive FType where
  | tChar | tInt | tFloat | tDate
  deriving DecidableEq, Repr

/-- A searchable field: owning model, field name and value type. -/
structure FieldRef where
  kind : Kind
  name : String
  ftype : FType
  deriving DecidableEq, Repr

/-- All fields of the five models, in model order and per-model
declaration order, with foreign keys, primary keys and the
`DateableABC` audit fields (`created_at`, `updated_at`) already removed —
exactly the entries `get_searcheable_fields` puts in its dict. -/
def searcheable_field_list : List FieldRef :=
  [⟨.mdd, "date_str", .tChar⟩, ⟨.mdd, "path_str", .tChar⟩,
   ⟨.dbf, "batch", .tChar⟩, ⟨.dbf, "tarsize", .tInt⟩,
   ⟨.dbf, "satellite", .tChar⟩, ⟨.dbf, "sensorid", .tChar⟩,
   ⟨.dbf, "acquisitio", .tDate⟩, ⟨.dbf, "cloudperce", .tFloat⟩,
   ⟨.dbf, "orbitid", .tInt⟩, ⟨.dbf, "scenepath", .tInt⟩,
   ⟨.dbf, "scenerow", .tInt⟩,
   ⟨.prj, "schema", .tChar⟩, ⟨.prj, "type", .tChar⟩,
   ⟨.prj, "name", .tChar⟩, ⟨.prj, "datum_type", .tChar⟩,
   ⟨.prj, "datum_name", .tChar⟩, ⟨.prj, "datum_ellipsoid_name", .tChar⟩,
   ⟨.prj, "datum_ellipsoid_semi_major_axis", .tInt⟩,
   ⟨.prj, "datum_ellipsoid_inverse_flattening", .tFloat⟩,
   ⟨.prj, "datum_id_authority", .tChar⟩, ⟨.prj, "datum_id_code", .tInt⟩,
   ⟨.prj, "coordinate_system_subtype", .tChar⟩,
   ⟨.axis, "name", .tChar⟩, ⟨.axis, "abbreviation", .tChar⟩,
   ⟨.axis, "direction", .tChar⟩, ⟨.axis, "unit_type", .tChar⟩,
   ⟨.axis, "unit_name", .tChar⟩, ⟨.axis, "unit_conversion_factor", .tFloat⟩,
   ⟨.jgw, "path", .tChar⟩, ⟨.jgw, "jpg", .tChar⟩,
   ⟨.jgw, "scale_x", .tFloat⟩, ⟨.jgw, "rotation_y", .tFloat⟩,
   ⟨.jgw, "rotation_x", .tFloat⟩, ⟨.jgw, "scale_y", .tFloat⟩,
   ⟨.jgw, "upper_left_x", .tFloat⟩, ⟨.jgw, "upper_left_y", .tFloat⟩]

/-- Lookup in the searchable-fields dict.  The dict is built with
`fields.update(new_fields)` model by model, so when two models declare
the same field name the later model's field wins — hence the *last*
matching entry of the list. -/
def get_searcheable_fields (n : String) : Option FieldRef :=
  (searcheable_field_list.filter (fun f => f.name = n)).getLast?

-- ===========================================================================
-- Query parsing (`SIMPLE_QUERY_PATTERN` and `parse_simple_query`)
-- ===========================================================================

/-- An element of a literal collection in a query: a string or an
integer (the flat literal lists the query grammar can express). -/
inductive PyLit where
  | str (s : String)
  | int (n : Int)
  deriving DecidableEq, Repr

/-- A Python value as it appears in a parsed condition: the raw string of
the condition's value, or (for `in` / `not in`) the literal collection
produced by `ast.literal_eval`.  Only the literal forms the query language
produces are modelled: strings, integers, and flat lists of these. -/
inductive PyVal where
  | str (s : String)
  | int (n : Int)
  | list (xs : List PyLit)
  deriving DecidableEq, Repr

/-- Python `repr` of a literal-collection element. -/
def pyLitRepr : PyLit → String
  | .str s => "'" ++ s ++ "'"
  | .int n => toString n

/-- Python `repr` of such a value (single-quoted strings, bracketed
lists; escape sequences never arise in the claims). -/
def pyRepr : PyVal → String
  | .str s => "'" ++ s ++ "'"
  | .int n => toString n
  | .list xs => "[" ++ ", ".intercalate (xs.map pyLitRepr) ++ "]"

/-- Python `str` of such a value: identity on strings, `repr` otherwise
(this is what `CharField.adapt = str` applies to a query value). -/
def pyStr : PyVal → String
  | .str s => s
  | v => pyRepr v

/-- One element of a literal collection: a single-quoted string or an
integer.  Returns the element and the remaining characters. -/
def literalElem (cs : List Char) : Option (PyLit × List Char) :=
  match cs with
  | '\'' :: rest =>
    let body := rest.takeWhile (fun c => c ≠ '\'')
    match rest.drop body.length with
    | '\'' :: rest2 => some (.str body.asString, rest2)
    | _ => none
  | _ =>
    let (sgn, cs1) := pySign cs
    let digits := cs1.takeWhile Char.isDigit
    if digits = [] then none
    else some (.int (sgn * (digits.foldl (fun a c => a * 10 + (c.toNat - 48)) 0 : Nat)),
               cs1.drop digits.length)

/-- Remaining elements of a literal collection after the first:
`, elem , elem ...` up to the closing character.  The first argument is
fuel; every parsing step consumes at least one character, so a fuel of
one more than the character count is always sufficient. -/
def literalElemsRest (close : Char) : Nat → List Char → Option (List PyLit × List Char)
  | 0, _ => none
  | n + 1, cs =>
    match cs.dropWhile Char.isWhitespace with
    | c :: rest =>
      if c = close then some ([], rest)
      else if c = ',' then
        match literalElem (rest.dropWhile Char.isWhitespace) with
        | none => none
        | some (v, rest2) => (literalElemsRest close n rest2).map
            (fun r => (v :: r.1, r.2))
      else none
    | [] => none

/-- Models `ast.literal_eval` on the literal forms relevant to
`in`/`not in` values: a bracketed or parenthesised collection of
single-quoted strings and integers, or a bare string/integer literal.
Anything else is a malformed literal (Python raises
`ValueError`/`SyntaxError` from `literal_eval`; not the wrapped
"Invalid query" message, since `literal_eval` runs before the guarded
constructor call). -/
def pyLiteralEval (s : String) : Except PyErr PyVal :=
  let cs := (pyStrip s).toList
  let parseColl (close : Char) (body : List Char) : Except PyErr PyVal :=
    match body.dropWhile Char.isWhitespace with
    | c :: rest =>
      if c = close ∧ (rest.dropWhile Char.isWhitespace) = [] then .ok (.list [])
      else
        match literalElem (body.dropWhile Char.isWhitespace) with
        | none => .error (.valueError ("malformed node or string: " ++ s))
        | some (v, rest2) =>
          match literalElemsRest close (rest2.length + 1) rest2 with
          | some (vs, rest3) =>
            if rest3.dropWhile Char.isWhitespace = [] then .ok (.list (v :: vs))
            else .error (.valueError ("malformed node or string: " ++ s))
          | none => .error (.valueError ("malformed node or string: " ++ s))
    | [] => .error (.valueError ("malformed node or string: " ++ s))
  match cs with
  | '[' :: body => parseColl ']' body
  | '(' :: body => parseColl ')' body
  | _ =>
    match literalElem cs with
    | some (v, rest) =>
      if rest.dropWhile Char.isWhitespace = [] then
        .ok (match v with | .str t => .str t | .int n => .int n)
      else .error (.valueError ("malformed node or string: " ++ s))
    | none => .error (.valueError ("malformed node or string: " ++ s))

/-- The operator alternatives of `SIMPLE_QUERY_PATTERN`, in the exact
alternation order of the regex: `!=|=|<=|<|>=|>|in|not in`.  The order
matters: at `"=="` the alternative `=` wins and leaves the second `=` to
the value group. -/
def opAlternatives : List String :=
  ["!=", "=", "<=", "<", ">=", ">", "in", "not in"]

/-- Python regex `\w` on a character (ASCII scope: letters, digits,
underscore — nothing in the repository uses non-ASCII field names). -/
def isWordChar (c : Char) : Bool :=
  c.isAlphanum || c = '_'

/-- Try each operator alternative, in order, at the character position
after the field name and the following whitespace.  On a prefix match
the rest of the string must be nonempty (the `.+` value group needs at
least one character); the returned value is already stripped, as
`parse_simple_query` strips it. -/
def tryOpAlternatives : List String → List Char → Option (String × String)
  | [], _ => none
  | op :: ops, cs =>
    if op.toList.isPrefixOf cs then
      let after := cs.drop op.toList.length
      if after = [] then tryOpAlternatives ops cs
      else some (op, pyStrip after.asString)
    else tryOpAlternatives ops cs

/-- Backtracking over the greedy `\w+` group of `SIMPLE_QUERY_PATTERN`:
try the longest word prefix of length `n` first, then shorter ones.
Whitespace between the groups is consumed maximally, which is exact here
because no operator alternative begins with whitespace. -/
def matchArgAt : Nat → List Char → Option (String × String × String)
  | 0, _ => none
  | n + 1, cs =>
    let arg := (cs.take (n + 1)).asString
    let rest := (cs.drop (n + 1)).dropWhile Char.isWhitespace
    match tryOpAlternatives opAlternatives rest with
    | some (op, value) => some (arg, op, value)
    | none => matchArgAt n cs

/-- `SIMPLE_QUERY_PATTERN.match` on an already-stripped condition
segment: `(?P<arg>\w+)\s*(?P<op>!=|=|<=|<|>=|>|in|not in)\s*(?P<value>.+)`.
Returns the three groups (with the value group stripped, matching its
use site) or `none` when the segment does not match. -/
def matchSimpleQuery (s : String) : Option (String × String × String) :=
  let cs := s.toList
  matchArgAt (cs.takeWhile isWordChar).length cs

/-- `_SimpleOperation`: a parsed condition.  The attrs validators
(`arg` matches `^[a-zA-Z][a-zA-Z0-9_]*$`, `operation` is a key of
`operation_methods`) are checked by `mkSimpleOperation` below. -/
structure SimpleOperation where
  arg : String
  operation : String
  value : PyVal
  deriving DecidableEq, Repr

/-- The `arg` validator regex `^[a-zA-Z][a-zA-Z0-9_]*$`. -/
def argValid (s : String) : Bool :=
  match s.toList with
  | [] => false
  | c :: rest => (c.isUpper || c.isLower) && rest.all (fun d => d.isAlphanum || d = '_')

/-- Construction of a `_SimpleOperation`, failing (like the attrs
validators) on a bad field name or operator; `parse_simple_query` wraps
such failures into its "Invalid query" `ValueError`. -/
def mkSimpleOperation (arg operation : String) (value : PyVal) :
    Except PyErr SimpleOperation :=
  if argValid arg ∧ operation ∈ opAlternatives then
    .ok ⟨arg, operation, value⟩
  else
    .error (.valueError "SimpleOperation validator failed")

/-- `Database.parse_simple_query`: split on `&`, strip each segment,
match it against `SIMPLE_QUERY_PATTERN`, `literal_eval` the value for
`in`/`not in`, and build the `_SimpleOperation`s. -/
def parse_simple_query (query_str : String) : Except PyErr (List SimpleOperation) :=
  (pySplit '&' query_str).mapM (fun squery_str => do
    let stripped := pyStrip squery_str
    match matchSimpleQuery stripped with
    | none => .error (.querySyntaxError query_str stripped)
    | some (arg, operation, value_str) => do
      let value ← if operation = "in" ∨ operation = "not in" then
          pyLiteralEval value_str
        else
          pure (PyVal.str value_str)
      match mkSimpleOperation arg operation value with
      | .ok op => pure op
      | .error _ => .error (.querySyntaxError query_str stripped))

-- ===========================================================================
-- Query compilation (`_SimpleOperation.bind`, `Database.compile_query`)
-- ===========================================================================

/-- A stored (or coerced) SQL value: text, integer, real, or NULL. -/
inductive Val where
  | s (v : String)
  | i (v : Int)
  | q (v : ℚ)
  | null
  deriving DecidableEq, Repr

/-- `field.python_value(value)`: peewee applies the field's `adapt`
function to the query value.  `CharField.adapt = str` (so quotes in the
raw text are kept, and a list is turned into its `repr`);
`IntegerField.adapt = int` and `FloatField.adapt = float` raise
`ValueError` on non-numeric text and `TypeError` on a list.  `DateField`
conversion is never exercised by a claim and keeps the raw text. -/
def field_python_value (f : FieldRef) (v : PyVal) : Except PyErr Val :=
  match f.ftype with
  | .tChar => .ok (.s (pyStr v))
  | .tInt =>
    match v with
    | .str s => (pyInt s).map .i
    | .int n => .ok (.i n)
    | .list _ => .error (.typeError "int() argument must not be a list")
  | .tFloat =>
    match v with
    | .str s => (pyFloat s).map .q
    | .int n => .ok (.q (n : ℚ))
    | .list _ => .error (.typeError "float() argument must not be a list")
  | .tDate =>
    match v with
    | .str s => .ok (.s s)
    | .int n => .ok (.i n)
    | .list _ => .error (.typeError "date value must not be a list")

/-- One compiled predicate fragment: a field, a comparison operator and
the already-coerced value, as produced by `_SimpleOperation.bind`. -/
structure Cond where
  field : FieldRef
  operation : String
  value : Val
  deriving DecidableEq, Repr

/-- `_SimpleOperation.bind(field)`: coerce the value with
`field.python_value`, then apply the operator's entry of
`operation_methods`.  For the six comparison operators this builds a
peewee expression (a `Cond` here).  For `"in"` the table entry is
`operator.contains` applied as `contains(field, value)`, i.e. it asks
whether the coerced value is a member *of the field object*; a peewee
field is not a container, so this raises `TypeError`.  For `"not in"`
the entry is `lambda a, b: opetor.not_(...)` — `opetor` is an undefined
name (a typo for `operator`), so calling it raises `NameError` before
anything else is evaluated. -/
def SimpleOperation.bind (o : SimpleOperation) (f : FieldRef) :
    Except PyErr Cond := do
  let pv ← field_python_value f o.value
  if o.operation = "in" then
    .error (.typeError "argument of type Field is not iterable")
  else if o.operation = "not in" then
    .error (.nameError "opetor")
  else
    .ok ⟨f, o.operation, pv⟩

/-- `Database.compile_query`: resolve each operation's field in the
searchable-fields dict (unknown names raise `ValueError "Unknow field"`),
bind it, and conjoin the fragments.  `functools.reduce(operator.and_, …)`
over the fragments is a structural conjunction; it is embedded as the
list of fragments, evaluated conjunctively. -/
def compile_query (operations : List SimpleOperation) :
    Except PyErr (List Cond) :=
  operations.mapM (fun opdef =>
    match get_searcheable_fields opdef.arg with
    | none => .error (.unknownFieldError opdef.arg)
    | some field => opdef.bind field)

-- ===========================================================================
-- Query execution (`Database.simple_search`)
-- ===========================================================================

/-- One row of the joined relation
`JGW ⋈ MetaDataDirectory ⋈ DBFRecord`, `MetaDataDirectory ⋈ PRJ ⋈
CoordinateSystemAxisEntry` built by `simple_search`. -/
structure JoinRow where
  jgw : JGWRow
  mdd : MDDRow
  dbf : DBFRow
  prj : PRJRow
  ax : AxisRow
  deriving DecidableEq, Repr

/-- Value of a `MetaDataDirectory` field on a row. -/
def mddFieldVal (n : String) (r : MDDRow) : Val :=
  if n = "date_str" then .s r.date_str
  else if n = "path_str" then .s r.path_str
  else .null

/-- Value of a `DBFRecord` field on a row. -/
def dbfFieldVal (n : String) (r : DBFRow) : Val :=
  if n = "batch" then .s r.batch
  else if n = "tarsize" then .i r.tarsize
  else if n = "satellite" then .s r.satellite
  else if n = "sensorid" then .s r.sensorid
  else if n = "acquisitio" then (match r.acquisitio with | some d => .s d | none => .null)
  else if n = "cloudperce" then .q r.cloudperce
  else if n = "orbitid" then .i r.orbitid
  else if n = "scenepath" then .i r.scenepath
  else if n = "scenerow" then .i r.scenerow
  else .null

/-- Value of a `PRJ` field on a row. -/
def prjFieldVal (n : String) (r : PRJRow) : Val :=
  if n = "schema" then .s r.schema
  else if n = "type" then .s r.type
  else if n = "name" then .s r.name
  else if n = "datum_type" then .s r.datum_type
  else if n = "datum_name" then .s r.datum_name
  else if n = "datum_ellipsoid_name" then .s r.datum_ellipsoid_name
  else if n = "datum_ellipsoid_semi_major_axis" then .i r.datum_ellipsoid_semi_major_axis
  else if n = "datum_ellipsoid_inverse_flattening" then .q r.datum_ellipsoid_inverse_flattening
  else if n = "datum_id_authority" then .s r.datum_id_authority
  else if n = "datum_id_code" then .i r.datum_id_code
  else if n = "coordinate_system_subtype" then .s r.coordinate_system_subtype
  else .null

/-- Value of a `CoordinateSystemAxisEntry` field on a row. -/
def axisFieldVal (n : String) (r : AxisRow) : Val :=
  if n = "name" then .s r.name
  else if n = "abbreviation" then .s r.abbreviation
  else if n = "direction" then .s r.direction
  else if n = "unit_type" then .s r.unit_type
  else if n = "unit_name" then .s r.unit_name
  else if n = "unit_conversion_factor" then .q r.unit_conversion_factor
  else .null

/-- Value of a `JGW` field on a row. -/
def jgwFieldVal (n : String) (r : JGWRow) : Val :=
  if n = "path" then .s r.path
  else if n = "jpg" then .s r.jpg
  else if n = "scale_x" then .q r.scale_x
  else if n = "rotation_y" then .q r.rotation_y
  else if n = "rotation_x" then .q r.rotation_x
  else if n = "scale_y" then .q r.scale_y
  else if n = "upper_left_x" then .q r.upper_left_x
  else if n = "upper_left_y" then .q r.upper_left_y
  else .null

/-- Value of a searchable field on a joined row. -/
def fieldValOn (f : FieldRef) (r : JoinRow) : Val :=
  match f.kind with
  | .mdd => mddFieldVal f.name r.mdd
  | .dbf => dbfFieldVal f.name r.dbf
  | .prj => prjFieldVal f.name r.prj
  | .axis => axisFieldVal f.name r.ax
  | .jgw => jgwFieldVal f.name r.jgw

/-- Numeric reading of a value (SQLite compares INTEGER and REAL
numerically). -/
def valNum : Val → Option ℚ
  | .i n => some (n : ℚ)
  | .q x => some x
  | _ => none

/-- SQLite `=` on stored value and bound parameter: numerics compare
numerically, text compares exactly (case-sensitively); a comparison
involving NULL is not true; a text/numeric mismatch is not equal. -/
def sqlEq (a b : Val) : Bool :=
  match valNum a, valNum b with
  | some x, some y => x = y
  | _, _ =>
    match a, b with
    | .s x, .s y => x = y
    | _, _ => false

/-- SQLite `<`: NULL comparisons are never true; numerics order
numerically, text lexicographically, and any numeric sorts before any
text (SQLite storage-class ordering). -/
def sqlLt (a b : Val) : Bool :=
  match a, b with
  | .null, _ => false
  | _, .null => false
  | _, _ =>
    match valNum a, valNum b with
    | some x, some y => x < y
    | some _, none => true
    | none, some _ => false
    | none, none =>
      match a, b with
      | .s x, .s y => x < y
      | _, _ => false

/-- SQLite `<=` (never true when NULL is involved). -/
def sqlLe (a b : Val) : Bool :=
  match a, b with
  | .null, _ => false
  | _, .null => false
  | _, _ => sqlLt a b || sqlEq a b

/-- Evaluate one compiled fragment on a joined row, with the SQL
semantics of the peewee expression `bind` built:
`=`, `!=`, `<`, `<=`, `>`, `>=` comparing the field's stored value with
the bound coerced value. -/
def evalCond (c : Cond) (r : JoinRow) : Bool :=
  let fv := fieldValOn c.field r
  if c.operation = "=" then sqlEq fv c.value
  else if c.operation = "!=" then
    (match fv, c.value with
     | .null, _ => false
     | _, .null => false
     | _, _ => !sqlEq fv c.value)
  else if c.operation = "<" then sqlLt fv c.value
  else if c.operation = "<=" then sqlLe fv c.value
  else if c.operation = ">" then sqlLt c.value fv
  else if c.operation = ">=" then sqlLe c.value fv
  else false

/-- The joined relation of `simple_search`, in nested-loop join order:
`JGW.select().join(MetaDataDirectory).join(DBFRecord)
.switch(MetaDataDirectory).join(PRJ).join(CoordinateSystemAxisEntry)`.
All four joins are peewee's default INNER joins on the respective
foreign keys. -/
def joinRows (db : Store) : List JoinRow :=
  db.jgws.flatMap (fun j =>
    (db.mdds.filter (fun m => m.id = j.md_directory)).flatMap (fun m =>
      (db.dbfs.filter (fun d => d.md_directory = m.id)).flatMap (fun d =>
        (db.prjs.filter (fun p => p.md_directory = m.id)).flatMap (fun p =>
          (db.axes.filter (fun a => a.prj = p.id)).map (fun a =>
            ⟨j, m, d, p, a⟩)))))

/-- First-occurrence deduplication with an accumulator of already seen
values. -/
def dedupAux [DecidableEq α] : List α → List α → List α
  | [], _ => []
  | x :: xs, seen =>
    if x ∈ seen then dedupAux xs seen else x :: dedupAux xs (x :: seen)

/-- `SELECT DISTINCT`: keep the first occurrence of each selected row
value. -/
def sqlDistinct [DecidableEq α] (l : List α) : List α :=
  dedupAux l []

/-- The query-executor core: filter the joined relation by a compiled
predicate (a conjunction of fragments), project the `JGW` columns and
apply `DISTINCT`. -/
def execSearch (db : Store) (conds : List Cond) : List JGWRow :=
  sqlDistinct (((joinRows db).filter
    (fun r => conds.all (fun c => evalCond c r))).map JoinRow.jgw)

/-- `Database.simple_search`: parse, compile, join, filter, dedupe. -/
def simple_search (db : Store) (query_str : String) :
    Except PyErr (List JGWRow) := do
  let operations ← parse_simple_query query_str
  let conds ← compile_query operations
  .ok (execSearch db conds)

-- ===========================================================================
-- Statistics engine (`Database.field_info`)
-- ===========================================================================

/-- Insert into a sorted list, keeping order. -/
def insertSorted (x : ℚ) : List ℚ → List ℚ
  | [] => [x]
  | y :: ys => if x ≤ y then x :: y :: ys else y :: insertSorted x ys

/-- Sort a list of rationals ascending (the value `sorted` returns inside
`statistics.median`; any sorting algorithm yields the same list of
identical values). -/
def sortQ : List ℚ → List ℚ
  | [] => []
  | x :: xs => insertSorted x (sortQ xs)

/-- Python `min(seq)`: `ValueError` on an empty sequence. -/
def pyMin : List ℚ → Except PyErr ℚ
  | [] => .error .emptySequenceError
  | x :: xs => .ok (xs.foldl min x)

/-- Python `max(seq)`: `ValueError` on an empty sequence. -/
def pyMax : List ℚ → Except PyErr ℚ
  | [] => .error .emptySequenceError
  | x :: xs => .ok (xs.foldl max x)

/-- `statistics.mean`, exact over rationals (unused junk value 0 on the
empty list, which `field_info` never reaches: `min` raises first). -/
def qMean (l : List ℚ) : ℚ :=
  l.sum / (l.length : ℚ)

/-- `statistics.median`: middle element of the sorted values for an odd
count, average of the two middle elements for an even count. -/
def qMedian (l : List ℚ) : ℚ :=
  let s := sortQ l
  let n := l.length
  if n % 2 = 1 then s.getD (n / 2) 0
  else (s.getD (n / 2 - 1) 0 + s.getD (n / 2) 0) / 2

/-- The square of `statistics.stdev`, i.e. the sample variance
`Σ (x − mean)² / (n − 1)`, exact over rationals.  The code reports
`st.stdev(query)` — the nonnegative square root of this value — which is
irrational in general; the claims only mention the standard deviations
5 and 0, which are determined by their squares 25 and 0. -/
def qVarSample (l : List ℚ) : ℚ :=
  (l.map (fun x => (x - qMean l) ^ 2)).sum / ((l.length : ℚ) - 1)

/-- The numeric `stats` dict of `field_info`: Count, Uniques, Min, Max,
NA, Mean, Median and (the square of) Std.  `na` models
`math.nan in query or None in query`; numeric columns of this schema are
non-nullable and NaN has no rational counterpart, so it is false on
every representable store. -/
structure NumStats where
  count : Nat
  uniques : Nat
  vmin : ℚ
  vmax : ℚ
  na : Bool
  mean : ℚ
  median : ℚ
  stdSq : ℚ
  deriving DecidableEq, Repr

/-- The text `stats` dict of `field_info`: Count, Uniques and up to ten
sample values with a `"..."` marker when more exist. -/
structure TextStats where
  count : Nat
  uniques : Nat
  values : List String
  deriving DecidableEq, Repr

/-- The `stats` member of a `field_info` result: numeric, text, or the
`"??"` placeholder used for any other field type. -/
inductive Stats where
  | nums (s : NumStats)
  | texts (t : TextStats)
  | unknown
  deriving DecidableEq, Repr

/-- A `field_info` result. -/
structure FieldInfo where
  field_name : String
  kind : Kind
  field_type : FType
  stats : Stats
  deriving DecidableEq, Repr

/-- `model.select(field)....scalars()` without DISTINCT: the field's
value on every row of the owning model, in rowid order. -/
def allFieldVals (db : Store) (f : FieldRef) : List Val :=
  match f.kind with
  | .mdd => db.mdds.map (mddFieldVal f.name)
  | .dbf => db.dbfs.map (dbfFieldVal f.name)
  | .prj => db.prjs.map (prjFieldVal f.name)
  | .axis => db.axes.map (axisFieldVal f.name)
  | .jgw => db.jgws.map (jgwFieldVal f.name)

/-- Numeric reading of a stored value (total; integer and float columns
only ever hold numerics). -/
def valNumD (v : Val) : ℚ :=
  (valNum v).getD 0

/-- Text reading of a stored value (total; char columns only ever hold
text). -/
def valStrD : Val → String
  | .s v => v
  | _ => ""

/-- `Database.field_info`: look the field up in the searchable-fields
dict (`KeyError` when absent), read the DISTINCT value set of its
column, and summarise.  For numeric fields `min` is the first call that
raises on an empty value set (`ValueError: min() arg is an empty
sequence`); text fields never raise.  `DateField` columns fall to the
`{"??": "??"}` placeholder. -/
def field_info (db : Store) (field_name : String) :
    Except PyErr FieldInfo := do
  match get_searcheable_fields field_name with
  | none => .error (.keyError field_name)
  | some field =>
    let query := sqlDistinct (allFieldVals db field)
    match field.ftype with
    | .tInt | .tFloat => do
      let nums := query.map valNumD
      let mn ← pyMin nums
      let mx ← pyMax nums
      .ok ⟨field_name, field.kind, field.ftype,
        .nums ⟨query.length, (sqlDistinct nums).length, mn, mx, false,
               qMean nums, qMedian nums,
               if query.length > 1 then qVarSample nums else 0⟩⟩
    | .tChar =>
      let uniques := sqlDistinct (query.map valStrD)
      .ok ⟨field_name, field.kind, field.ftype,
        .texts ⟨query.length, uniques.length,
                if uniques.length > 10 then uniques.take 10 ++ ["..."]
                else uniques⟩⟩
    | .tDate =>
      .ok ⟨field_name, field.kind, field.ftype, .unknown⟩

-- ===========================================================================
-- Schema builder: upsert and store operations
-- ===========================================================================

/-- `Database.get_or_create_mdir` on a path argument: the key is the
*parent directory's name* of the supplied path (`mdir.parent.name`), the
defaults store the full path text.  An existing row with that
`date_str` is returned untouched; otherwise a new row is inserted.
(The other branch of the Python function — being passed an already
constructed `MetaDataDirectory` row — returns it unchanged and is not
needed by any claim.) -/
def get_or_create_mdir (db : Store) (mdir : PyPath) : MDDRow × Store :=
  let key := mdir.parent.name
  match db.mdds.find? (fun r => r.date_str = key) with
  | some r => (r, db)
  | none =>
    let r : MDDRow :=
      { id := nextId (db.mdds.map MDDRow.id), date_str := key,
        path_str := mdir.str }
    (r, { db with mdds := db.mdds ++ [r] })

/-- `Database.store_dbfreg`: get-or-create the directory, coerce the
numeric columns (`int(...)` on the integer fields, `float(...)` after
replacing the first decimal comma with a dot on `cloudperce`), insert
and return the row. -/
def store_dbfreg (db : Store) (mdir : PyPath)
    (batch tarsize satellite sensorid : String) (acquisitio : Option String)
    (cloudperce orbitid scenepath scenerow : String) :
    Except PyErr (DBFRow × Store) := do
  let (mdir_reg, db1) := get_or_create_mdir db mdir
  let tarsizeV ← pyInt tarsize
  let cloudperceV ← pyFloat (pyReplace1 cloudperce ',' '.')
  let orbitidV ← pyInt orbitid
  let scenepathV ← pyInt scenepath
  let scenerowV ← pyInt scenerow
  let reg : DBFRow :=
    { id := nextId (db1.dbfs.map DBFRow.id), md_directory := mdir_reg.id,
      batch := batch, tarsize := tarsizeV, satellite := satellite,
      sensorid := sensorid, acquisitio := acquisitio,
      cloudperce := cloudperceV, orbitid := orbitidV,
      scenepath := scenepathV, scenerow := scenerowV }
  .ok (reg, { db1 with dbfs := db1.dbfs ++ [reg] })

/-- `Database.store_jgw`: get-or-create the directory and insert the
georeferencing row (the six parameters arrive already parsed as floats
from `_store_jgw`). -/
def store_jgw (db : Store) (mdir : PyPath) (path : String)
    (scale_x rotation_y rotation_x scale_y upper_left_x upper_left_y : ℚ)
    (jpg_path : String) : JGWRow × Store :=
  let (mdir_reg, db1) := get_or_create_mdir db mdir
  let reg : JGWRow :=
    { id := nextId (db1.jgws.map JGWRow.id), md_directory := mdir_reg.id,
      path := path, jpg := jpg_path, scale_x := scale_x,
      rotation_y := rotation_y, rotation_x := rotation_x,
      scale_y := scale_y, upper_left_x := upper_left_x,
      upper_left_y := upper_left_y }
  (reg, { db1 with jgws := db1.jgws ++ [reg] })

/-- The filesystem seen by `core._store_jgw`: existing files and their
line lists (a line's trailing newline is already removed; `readlines`
keeps them in Python but the code strips every line before use). -/
structure FileSys where
  files : List (String × List String)
  deriving DecidableEq, Repr

/-- `path.exists()`. -/
def FileSys.existsPath (fs : FileSys) (p : String) : Bool :=
  (fs.files.lookup p).isSome

/-- `core._store_jgw`: check that the paired `.jpg` exists (raising
`ValueError` — the validation failure — before anything is stored),
read the six lines, normalise each with
`float(line.strip().replace(",", ".", 1))` and store the `JGW` row.
The result pairs the (possibly updated) store with the raised error, so
that "nothing was persisted by a failed call" is an explicit
statement. -/
def _store_jgw (fs : FileSys) (db : Store) (mdir_path jgw_path : PyPath) :
    Store × Option PyErr :=
  let jpg_path := jgw_path.with_suffix "jpg"
  if ¬ fs.existsPath jpg_path.str then
    (db, some (.validationError ("Missing jpg path for file " ++ jgw_path.str)))
  else
    match fs.files.lookup jgw_path.str with
    | none => (db, some (.valueError ("No such file: " ++ jgw_path.str)))
    | some jgw_lines =>
      if jgw_lines.length ≠ 6 then
        (db, some (.valueError "JGW file is not valid"))
      else
        match jgw_lines.mapM (fun l => pyFloat (pyReplace1 (pyStrip l) ',' '.')) with
        | .error e => (db, some e)
        | .ok vals =>
          let db2 := (store_jgw db mdir_path jgw_path.str
            (vals.getD 0 0) (vals.getD 1 0) (vals.getD 2 0)
            (vals.getD 3 0) (vals.getD 4 0) (vals.getD 5 0) jpg_path.str).2
          (db2, none)

-- ===========================================================================
-- Graph flattener (`model_to_dict`, `records_as_list`)
-- ===========================================================================

/-- A value inside the exported tree: a scalar, NULL, a nested dict or a
list of nested dicts. -/
inductive DVal where
  | s (v : String)
  | i (v : Int)
  | q (v : ℚ)
  | null
  | dict (fields : List (String × DVal))
  | arr (items : List DVal)

/-- Identity of a model instance, as the `visited` set sees it: peewee
`Model.__eq__`/`__hash__` compare the model class and the primary key. -/
abbrev EKey := Kind × Nat

/-- `dict(model_obj.__data__)` for a row: primary key, audit
timestamps, the raw foreign-key id and the payload attributes.  (Key
order inside the dict is immaterial to every claim.) -/
def rowData (db : Store) : EKey → Option (List (String × DVal))
  | (.mdd, i) => (db.mdds.find? (fun r => r.id = i)).map (fun r =>
      [("id", .i r.id), ("created_at", .i r.created_at),
       ("updated_at", .i r.updated_at),
       ("date_str", .s r.date_str), ("path_str", .s r.path_str)])
  | (.dbf, i) => (db.dbfs.find? (fun r => r.id = i)).map (fun r =>
      [("id", .i r.id), ("created_at", .i r.created_at),
       ("updated_at", .i r.updated_at), ("md_directory", .i r.md_directory),
       ("batch", .s r.batch), ("tarsize", .i r.tarsize),
       ("satellite", .s r.satellite), ("sensorid", .s r.sensorid),
       ("acquisitio", match r.acquisitio with | some d => .s d | none => .null),
       ("cloudperce", .q r.cloudperce), ("orbitid", .i r.orbitid),
       ("scenepath", .i r.scenepath), ("scenerow", .i r.scenerow)])
  | (.prj, i) => (db.prjs.find? (fun r => r.id = i)).map (fun r =>
      [("id", .i r.id), ("created_at", .i r.created_at),
       ("updated_at", .i r.updated_at), ("md_directory", .i r.md_directory),
       ("schema", .s r.schema), ("type", .s r.type), ("name", .s r.name),
       ("datum_type", .s r.datum_type), ("datum_name", .s r.datum_name),
       ("datum_ellipsoid_name", .s r.datum_ellipsoid_name),
       ("datum_ellipsoid_semi_major_axis", .i r.datum_ellipsoid_semi_major_axis),
       ("datum_ellipsoid_inverse_flattening", .q r.datum_ellipsoid_inverse_flattening),
       ("datum_id_authority", .s r.datum_id_authority),
       ("datum_id_code", .i r.datum_id_code),
       ("coordinate_system_subtype", .s r.coordinate_system_subtype)])
  | (.axis, i) => (db.axes.find? (fun r => r.id = i)).map (fun r =>
      [("id", .i r.id), ("created_at", .i r.created_at),
       ("updated_at", .i r.updated_at), ("prj", .i r.prj),
       ("name", .s r.name), ("abbreviation", .s r.abbreviation),
       ("direction", .s r.direction), ("unit_type", .s r.unit_type),
       ("unit_name", .s r.unit_name),
       ("unit_conversion_factor", .q r.unit_conversion_factor)])
  | (.jgw, i) => (db.jgws.find? (fun r => r.id = i)).map (fun r =>
      [("id", .i r.id), ("created_at", .i r.created_at),
       ("updated_at", .i r.updated_at), ("md_directory", .i r.md_directory),
       ("path", .s r.path), ("jpg", .s r.jpg), ("scale_x", .q r.scale_x),
       ("rotation_y", .q r.rotation_y), ("rotation_x", .q r.rotation_x),
       ("scale_y", .q r.scale_y), ("upper_left_x", .q r.upper_left_x),
       ("upper_left_y", .q r.upper_left_y)])

/-- The single forward relationship (`model_obj._meta.refs`) of an
instance: field name and referenced instance key.  `MetaDataDirectory`
has none. -/
def rowFwd (db : Store) : EKey → Option (String × EKey)
  | (.mdd, _) => none
  | (.dbf, i) => (db.dbfs.find? (fun r => r.id = i)).map
      (fun r => ("md_directory", (Kind.mdd, r.md_directory)))
  | (.prj, i) => (db.prjs.find? (fun r => r.id = i)).map
      (fun r => ("md_directory", (Kind.mdd, r.md_directory)))
  | (.axis, i) => (db.axes.find? (fun r => r.id = i)).map
      (fun r => ("prj", (Kind.prj, r.prj)))
  | (.jgw, i) => (db.jgws.find? (fun r => r.id = i)).map
      (fun r => ("md_directory", (Kind.mdd, r.md_directory)))

/-- The back-referencing models (`model_obj._meta.model_backrefs`), in
registration order: `MetaDataDirectory` is referenced by `DBFRecord`,
`PRJ` and `JGW`; `PRJ` by `CoordinateSystemAxisEntry`. -/
def backrefKinds : Kind → List Kind
  | .mdd => [.dbf, .prj, .jgw]
  | .prj => [.axis]
  | _ => []

/-- `brmodel.__name__`, the dict key under which a back-reference
collection is stored. -/
def kindName : Kind → String
  | .mdd => "MetaDataDirectory"
  | .dbf => "DBFRecord"
  | .prj => "PRJ"
  | .axis => "CoordinateSystemAxisEntry"
  | .jgw => "JGW"

/-- The child instances of `parent` of back-referencing kind `ck`
(`getattr(model_obj, brfield.backref)`), in rowid order. -/
def childrenOf (db : Store) (parent : EKey) (ck : Kind) : List EKey :=
  match ck with
  | .mdd => []
  | .dbf => (db.dbfs.filter (fun r => r.md_directory = parent.2)).map
      (fun r => (Kind.dbf, r.id))
  | .prj => (db.prjs.filter (fun r => r.md_directory = parent.2)).map
      (fun r => (Kind.prj, r.id))
  | .axis => (db.axes.filter (fun r => r.prj = parent.2)).map
      (fun r => (Kind.axis, r.id))
  | .jgw => (db.jgws.filter (fun r => r.md_directory = parent.2)).map
      (fun r => (Kind.jgw, r.id))

/-- `data[key] = value` when `key` is already present (the raw
foreign-key id being replaced by the nested dict). -/
def updateAssoc (l : List (String × DVal)) (k : String) (v : DVal) :
    List (String × DVal) :=
  l.map (fun p => if p.1 = k then (k, v) else p)

mutual

/-- `model_to_dict(model_obj, visited, upper_level_model)` with explicit
fuel bounding the recursion depth.  `none` is fuel exhaustion — the
fuel-sufficiency theorem shows any fuel above the number of entity kinds
never reaches it, which is the termination of the Python recursion.  The
two sets are threaded through exactly as Python mutates its shared
`visited` and `upper_level_model` sets: an instance already in `visited`
or an instance of a kind already in `upper_level_model` flattens to
`None`; otherwise the instance and its kind are added, the forward
reference is inlined over the raw foreign-key id (when it did not
flatten to `None`), and each back-referencing kind not yet in
`upper_level_model` contributes the non-`None` flattenings of its child
instances. -/
def model_to_dict_fuel (db : Store) : Nat → EKey → Finset EKey → Finset Kind →
    Option (Option DVal × Finset EKey × Finset Kind)
  | 0, _, _, _ => none
  | fuel + 1, ek, visited, upper =>
    if ek ∈ visited ∨ ek.1 ∈ upper then some (none, visited, upper)
    else
      match rowData db ek with
      | none => some (none, visited, upper)
      | some data0 =>
        let visited1 := insert ek visited
        let upper1 := insert ek.1 upper
        match (match rowFwd db ek with
               | none => some (data0, visited1, upper1)
               | some (fname, pk) =>
                 match model_to_dict_fuel db fuel pk visited1 upper1 with
                 | none => none
                 | some (rd, v2, u2) =>
                   some ((match rd with
                          | some d => updateAssoc data0 fname d
                          | none => data0), v2, u2)) with
        | none => none
        | some (data1, v2, u2) =>
          match backrefs_fuel db fuel (backrefKinds ek.1) ek v2 u2 with
          | none => none
          | some (extra, v3, u3) =>
            some (some (.dict (data1 ++ extra)), v3, u3)
termination_by fuel _ _ _ => (fuel, 1, 0)

/-- The back-reference loop of `model_to_dict`: for each
back-referencing kind, skip it when it is already in
`upper_level_model`, otherwise flatten its children and add the
collection under the kind's name when nonempty. -/
def backrefs_fuel (db : Store) : Nat → List Kind → EKey → Finset EKey →
    Finset Kind → Option (List (String × DVal) × Finset EKey × Finset Kind)
  | _, [], _, visited, upper => some ([], visited, upper)
  | fuel, ck :: rest, ek, visited, upper =>
    if ck ∈ upper then backrefs_fuel db fuel rest ek visited upper
    else
      match children_fuel db fuel (childrenOf db ek ck) visited upper with
      | none => none
      | some (items, v2, u2) =>
        match backrefs_fuel db fuel rest ek v2 u2 with
        | none => none
        | some (extra, v3, u3) =>
          some ((if items.isEmpty then extra
                 else (kindName ck, DVal.arr items) :: extra), v3, u3)
termination_by fuel cks _ _ _ => (fuel, 3, cks.length)

/-- The inner loop over one back-reference's child instances: flatten
each in turn (the shared sets threading through), collecting the
non-`None` results. -/
def children_fuel (db : Store) : Nat → List EKey → Finset EKey →
    Finset Kind → Option (List DVal × Finset EKey × Finset Kind)
  | _, [], visited, upper => some ([], visited, upper)
  | fuel, c :: cs, visited, upper =>
    match model_to_dict_fuel db fuel c visited upper with
    | none => none
    | some (rd, v2, u2) =>
      match children_fuel db fuel cs v2 u2 with
      | none => none
      | some (items, v3, u3) =>
        some ((match rd with | some d => d :: items | none => items), v3, u3)
termination_by fuel cs _ _ => (fuel, 2, cs.length)

end

/-- `model_to_dict(model_obj)` as called from `records_as_list`: fresh
`visited`/`upper_level_model` sets and fuel 6 (one more than the number
of entity kinds, shown sufficient by the fuel theorem). -/
def model_to_dict (db : Store) (ek : EKey) : Option DVal :=
  match model_to_dict_fuel db 6 ek ∅ ∅ with
  | some (d, _, _) => d
  | none => none

/-- `records_as_list(records)`: flatten each result independently, the
sets re-seeded per top-level entity. -/
def records_as_list (db : Store) (records : List EKey) : List (Option DVal) :=
  records.map (model_to_dict db)

-- ===========================================================================
-- Flattener lemmas: the shared sets only grow, more fuel never changes a
-- defined result, and fuel 6 always suffices
-- ===========================================================================

/-- The child loop only grows the shared sets, given that one flattening
call at the same fuel does. -/
theorem children_fuel_subset (db : Store) (fuel : Nat)
    (hA : ∀ ek v u r, model_to_dict_fuel db fuel ek v u = some r →
      v ⊆ r.2.1 ∧ u ⊆ r.2.2) :
    ∀ cs v u r, children_fuel db fuel cs v u = some r →
      v ⊆ r.2.1 ∧ u ⊆ r.2.2 := by
  intro cs
  induction cs with
  | nil =>
    intro v u r h
    simp only [children_fuel] at h
    cases h
    exact ⟨Finset.Subset.refl _, Finset.Subset.refl _⟩
  | cons c cs ih =>
    intro v u r h
    simp only [children_fuel] at h
    cases h1 : model_to_dict_fuel db fuel c v u with
    | none => rw [h1] at h; cases h
    | some r2 =>
      obtain ⟨rd, v2, u2⟩ := r2
      rw [h1] at h
      dsimp only at h
      cases h2 : children_fuel db fuel cs v2 u2 with
      | none => rw [h2] at h; cases h
      | some r3 =>
        obtain ⟨items, v3, u3⟩ := r3
        rw [h2] at h
        dsimp only at h
        cases h
        have s1 := hA c v u _ h1
        have s2 := ih v2 u2 _ h2
        exact ⟨s1.1.trans s2.1, s1.2.trans s2.2⟩

/-- The back-reference loop only grows the shared sets, given that the
child loop at the same fuel does. -/
theorem backrefs_fuel_subset (db : Store) (fuel : Nat)
    (hB : ∀ cs v u r, children_fuel db fuel cs v u = some r →
      v ⊆ r.2.1 ∧ u ⊆ r.2.2) :
    ∀ ks ek v u r, backrefs_fuel db fuel ks ek v u = some r →
      v ⊆ r.2.1 ∧ u ⊆ r.2.2 := by
  intro ks
  induction ks with
  | nil =>
    intro ek v u r h
    simp only [backrefs_fuel] at h
    cases h
    exact ⟨Finset.Subset.refl _, Finset.Subset.refl _⟩
  | cons ck ks ih =>
    intro ek v u r h
    simp only [backrefs_fuel] at h
    by_cases hck : ck ∈ u
    · rw [if_pos hck] at h
      exact ih ek v u r h
    · rw [if_neg hck] at h
      cases h1 : children_fuel db fuel (childrenOf db ek ck) v u with
      | none => rw [h1] at h; cases h
      | some r2 =>
        obtain ⟨items, v2, u2⟩ := r2
        rw [h1] at h
        dsimp only at h
        cases h2 : backrefs_fuel db fuel ks ek v2 u2 with
        | none => rw [h2] at h; cases h
        | some r3 =>
          obtain ⟨extra, v3, u3⟩ := r3
          rw [h2] at h
          dsimp only at h
          cases h
          have s1 := hB _ v u _ h1
          have s2 := ih ek v2 u2 _ h2
          exact ⟨s1.1.trans s2.1, s1.2.trans s2.2⟩

/-- A flattening call only grows the shared `visited` and
`upper_level_model` sets. -/
theorem model_to_dict_fuel_subset (db : Store) :
    ∀ fuel ek v u r, model_to_dict_fuel db fuel ek v u = some r →
      v ⊆ r.2.1 ∧ u ⊆ r.2.2 := by
  intro fuel
  induction fuel with
  | zero => intro ek v u r h; simp [model_to_dict_fuel] at h
  | succ fuel ih =>
    have hB := children_fuel_subset db fuel ih
    have hC := backrefs_fuel_subset db fuel hB
    intro ek v u r h
    simp only [model_to_dict_fuel] at h
    by_cases hg : ek ∈ v ∨ ek.1 ∈ u
    · rw [if_pos hg] at h
      cases h
      exact ⟨Finset.Subset.refl _, Finset.Subset.refl _⟩
    · rw [if_neg hg] at h
      cases hrow : rowData db ek with
      | none =>
        rw [hrow] at h
        cases h
        exact ⟨Finset.Subset.refl _, Finset.Subset.refl _⟩
      | some data0 =>
        rw [hrow] at h
        dsimp only at h
        have base1 : v ⊆ insert ek v := Finset.subset_insert _ _
        have base2 : u ⊆ insert ek.1 u := Finset.subset_insert _ _
        cases hfwd : rowFwd db ek with
        | none =>
          rw [hfwd] at h
          dsimp only at h
          cases h1 : backrefs_fuel db fuel (backrefKinds ek.1) ek
              (insert ek v) (insert ek.1 u) with
          | none => rw [h1] at h; cases h
          | some r3 =>
            obtain ⟨extra, v3, u3⟩ := r3
            rw [h1] at h
            dsimp only at h
            cases h
            have s2 := hC _ ek _ _ _ h1
            exact ⟨base1.trans s2.1, base2.trans s2.2⟩
        | some fp =>
          obtain ⟨fname, pk⟩ := fp
          rw [hfwd] at h
          dsimp only at h
          cases h1 : model_to_dict_fuel db fuel pk (insert ek v) (insert ek.1 u) with
          | none => rw [h1] at h; cases h
          | some r2 =>
            obtain ⟨rd, v2, u2⟩ := r2
            rw [h1] at h
            dsimp only at h
            cases h2 : backrefs_fuel db fuel (backrefKinds ek.1) ek v2 u2 with
            | none => rw [h2] at h; cases h
            | some r3 =>
              obtain ⟨extra, v3, u3⟩ := r3
              rw [h2] at h
              dsimp only at h
              cases h
              have s1 := ih pk _ _ _ h1
              have s2 := hC _ ek _ _ _ h2
              exact ⟨base1.trans (s1.1.trans s2.1), base2.trans (s1.2.trans s2.2)⟩

/-- More fuel preserves a defined child-loop result, given that it
preserves a defined flattening result at the same fuel. -/
theorem children_fuel_mono (db : Store) (fuel : Nat)
    (hA : ∀ ek v u r, model_to_dict_fuel db fuel ek v u = some r →
      model_to_dict_fuel db (fuel + 1) ek v u = some r) :
    ∀ cs v u r, children_fuel db fuel cs v u = some r →
      children_fuel db (fuel + 1) cs v u = some r := by
  intro cs
  induction cs with
  | nil =>
    intro v u r h
    simpa only [children_fuel] using h
  | cons c cs ih =>
    intro v u r h
    simp only [children_fuel] at h ⊢
    cases h1 : model_to_dict_fuel db fuel c v u with
    | none => rw [h1] at h; cases h
    | some r2 =>
      obtain ⟨rd, v2, u2⟩ := r2
      rw [h1] at h
      dsimp only at h
      rw [hA _ _ _ _ h1]
      dsimp only
      cases h2 : children_fuel db fuel cs v2 u2 with
      | none => rw [h2] at h; cases h
      | some r3 =>
        obtain ⟨items, v3, u3⟩ := r3
        rw [h2] at h
        dsimp only at h
        rw [ih _ _ _ h2]
        exact h

/-- More fuel preserves a defined back-reference-loop result, given that
it preserves a defined child-loop result at the same fuel. -/
theorem backrefs_fuel_mono (db : Store) (fuel : Nat)
    (hB : ∀ cs v u r, children_fuel db fuel cs v u = some r →
      children_fuel db (fuel + 1) cs v u = some r) :
    ∀ ks ek v u r, backrefs_fuel db fuel ks ek v u = some r →
      backrefs_fuel db (fuel + 1) ks ek v u = some r := by
  intro ks
  induction ks with
  | nil =>
    intro ek v u r h
    simpa only [backrefs_fuel] using h
  | cons ck ks ih =>
    intro ek v u r h
    simp only [backrefs_fuel] at h ⊢
    by_cases hck : ck ∈ u
    · rw [if_pos hck] at h ⊢
      exact ih ek v u r h
    · rw [if_neg hck] at h ⊢
      cases h1 : children_fuel db fuel (childrenOf db ek ck) v u with
      | none => rw [h1] at h; cases h
      | some r2 =>
        obtain ⟨items, v2, u2⟩ := r2
        rw [h1] at h
        dsimp only at h
        rw [hB _ _ _ _ h1]
        dsimp only
        cases h2 : backrefs_fuel db fuel ks ek v2 u2 with
        | none => rw [h2] at h; cases h
        | some r3 =>
          obtain ⟨extra, v3, u3⟩ := r3
          rw [h2] at h
          dsimp only at h
          rw [ih _ _ _ _ h2]
          exact h

/-- More fuel preserves a defined flattening result. -/
theorem model_to_dict_fuel_mono (db : Store) :
    ∀ fuel ek v u r, model_to_dict_fuel db fuel ek v u = some r →
      model_to_dict_fuel db (fuel + 1) ek v u = some r := by
  intro fuel
  induction fuel with
  | zero => intro ek v u r h; simp [model_to_dict_fuel] at h
  | succ fuel ih =>
    have hB := children_fuel_mono db fuel ih
    have hC := backrefs_fuel_mono db fuel hB
    intro ek v u r h
    rw [model_to_dict_fuel.eq_2] at h ⊢
    by_cases hg : ek ∈ v ∨ ek.1 ∈ u
    · rw [if_pos hg] at h ⊢
      exact h
    · rw [if_neg hg] at h ⊢
      cases hrow : rowData db ek with
      | none => rw [hrow] at h; dsimp only at h ⊢; exact h
      | some data0 =>
        rw [hrow] at h
        dsimp only at h ⊢
        cases hfwd : rowFwd db ek with
        | none =>
          rw [hfwd] at h
          dsimp only at h ⊢
          cases h1 : backrefs_fuel db fuel (backrefKinds ek.1) ek
              (insert ek v) (insert ek.1 u) with
          | none => rw [h1] at h; cases h
          | some r3 =>
            obtain ⟨extra, v3, u3⟩ := r3
            rw [h1] at h
            dsimp only at h
            rw [hC _ _ _ _ _ h1]
            exact h
        | some fp =>
          obtain ⟨fname, pk⟩ := fp
          rw [hfwd] at h
          dsimp only at h ⊢
          cases h1 : model_to_dict_fuel db fuel pk (insert ek v) (insert ek.1 u) with
          | none => rw [h1] at h; cases h
          | some r2 =>
            obtain ⟨rd, v2, u2⟩ := r2
            rw [h1] at h
            dsimp only at h
            rw [ih _ _ _ _ h1]
            dsimp only
            cases h2 : backrefs_fuel db fuel (backrefKinds ek.1) ek v2 u2 with
            | none => rw [h2] at h; cases h
            | some r3 =>
              obtain ⟨extra, v3, u3⟩ := r3
              rw [h2] at h
              dsimp only at h
              rw [hC _ _ _ _ _ h2]
              exact h

/-- Fuel monotonicity, iterated to any larger fuel. -/
theorem model_to_dict_fuel_le (db : Store) (f1 f2 : Nat) (hle : f1 ≤ f2) :
    ∀ ek v u r, model_to_dict_fuel db f1 ek v u = some r →
      model_to_dict_fuel db f2 ek v u = some r := by
  induction f2, hle using Nat.le_induction with
  | base => intro ek v u r h; exact h
  | succ f2 _ ih =>
    intro ek v u r h
    exact model_to_dict_fuel_mono db f2 ek v u r (ih ek v u r h)

/-- The child loop is defined whenever flattening at the same fuel is
defined under the same fuel bound (the `upper_level_model` set only
grows along the loop, so the bound keeps holding). -/
theorem children_fuel_sufficient (db : Store) (fuel : Nat)
    (hA : ∀ ek v u, Fintype.card Kind - u.card < fuel →
      ∃ r, model_to_dict_fuel db fuel ek v u = some r) :
    ∀ cs v u, Fintype.card Kind - u.card < fuel →
      ∃ r, children_fuel db fuel cs v u = some r := by
  intro cs
  induction cs with
  | nil =>
    intro v u _
    exact ⟨([], v, u), by simp [children_fuel]⟩
  | cons c cs ih =>
    intro v u hb
    obtain ⟨⟨rd, v2, u2⟩, h1⟩ := hA c v u hb
    have hsub := model_to_dict_fuel_subset db fuel c v u _ h1
    have hb2 : Fintype.card Kind - u2.card < fuel := by
      have hle : u.card ≤ u2.card := Finset.card_le_card hsub.2
      omega
    obtain ⟨⟨items, v3, u3⟩, h2⟩ := ih v2 u2 hb2
    simp only [children_fuel]
    rw [h1]
    dsimp only
    rw [h2]
    exact ⟨_, rfl⟩

/-- The back-reference loop is defined whenever the child loop at the
same fuel is defined under the same fuel bound. -/
theorem backrefs_fuel_sufficient (db : Store) (fuel : Nat)
    (hB : ∀ cs v u, Fintype.card Kind - u.card < fuel →
      ∃ r, children_fuel db fuel cs v u = some r) :
    ∀ ks ek v u, Fintype.card Kind - u.card < fuel →
      ∃ r, backrefs_fuel db fuel ks ek v u = some r := by
  intro ks
  induction ks with
  | nil =>
    intro ek v u _
    exact ⟨([], v, u), by simp [backrefs_fuel]⟩
  | cons ck ks ih =>
    intro ek v u hb
    by_cases hck : ck ∈ u
    · obtain ⟨r, h⟩ := ih ek v u hb
      exact ⟨r, by simp only [backrefs_fuel]; rw [if_pos hck]; exact h⟩
    · obtain ⟨⟨items, v2, u2⟩, h1⟩ := hB (childrenOf db ek ck) v u hb
      have hsub := children_fuel_subset db fuel
        (model_to_dict_fuel_subset db fuel) _ v u _ h1
      have hb2 : Fintype.card Kind - u2.card < fuel := by
        have hle : u.card ≤ u2.card := Finset.card_le_card hsub.2
        omega
      obtain ⟨⟨extra, v3, u3⟩, h2⟩ := ih ek v2 u2 hb2
      simp only [backrefs_fuel]
      rw [if_neg hck, h1]
      dsimp only
      rw [h2]
      exact ⟨_, rfl⟩

/-- Fuel sufficiency: any fuel exceeding the number of entity kinds not
yet in `upper_level_model` makes the flattening defined — the Python
recursion terminates, because every productive recursion level inserts a
fresh kind into the shared `upper_level_model` set and there are only
five kinds. -/
theorem model_to_dict_fuel_sufficient (db : Store) :
    ∀ fuel ek v u, Fintype.card Kind - u.card < fuel →
      ∃ r, model_to_dict_fuel db fuel ek v u = some r := by
  intro fuel
  induction fuel with
  | zero => intro ek v u hb; omega
  | succ fuel ih =>
    have hB := children_fuel_sufficient db fuel ih
    have hC := backrefs_fuel_sufficient db fuel hB
    intro ek v u hb
    rw [model_to_dict_fuel.eq_2]
    by_cases hg : ek ∈ v ∨ ek.1 ∈ u
    · exact ⟨(none, v, u), by rw [if_pos hg]⟩
    · rw [if_neg hg]
      push_neg at hg
      cases hrow : rowData db ek with
      | none => exact ⟨(none, v, u), rfl⟩
      | some data0 =>
        dsimp only
        have hucard : u.card < Fintype.card Kind := by
          have hne : u ≠ Finset.univ := by
            intro he
            exact hg.2 (he ▸ Finset.mem_univ ek.1)
          have := Finset.card_lt_card (Finset.ssubset_univ_iff.mpr hne)
          simpa [Finset.card_univ] using this
        have hu1card : (insert ek.1 u).card = u.card + 1 :=
          Finset.card_insert_of_not_mem hg.2
        have hb1 : Fintype.card Kind - (insert ek.1 u).card < fuel := by omega
        cases hfwd : rowFwd db ek with
        | none =>
          dsimp only
          obtain ⟨⟨extra, v3, u3⟩, h2⟩ := hC (backrefKinds ek.1) ek
            (insert ek v) (insert ek.1 u) hb1
          rw [h2]
          exact ⟨_, rfl⟩
        | some fp =>
          obtain ⟨fname, pk⟩ := fp
          dsimp only
          obtain ⟨⟨rd, v2, u2⟩, h1⟩ := ih pk (insert ek v) (insert ek.1 u) hb1
          have hsub := model_to_dict_fuel_subset db fuel pk _ _ _ h1
          have hb2 : Fintype.card Kind - u2.card < fuel := by
            have hle : (insert ek.1 u).card ≤ u2.card := Finset.card_le_card hsub.2
            omega
          obtain ⟨⟨extra, v3, u3⟩, h2⟩ := hC (backrefKinds ek.1) ek v2 u2 hb2
          rw [h1]
          dsimp only
          rw [h2]
          exact ⟨_, rfl⟩

-- ===========================================================================
-- Generic list lemmas for the executor
-- ===========================================================================

/-- Membership in the accumulating deduplication. -/
theorem mem_dedupAux [DecidableEq α] :
    ∀ (l seen : List α) (x : α), x ∈ dedupAux l seen ↔ x ∈ l ∧ x ∉ seen := by
  intro l
  induction l with
  | nil => intro seen x; simp [dedupAux]
  | cons y ys ih =>
    intro seen x
    by_cases hy : y ∈ seen
    · simp only [dedupAux, if_pos hy, ih]
      constructor
      · rintro ⟨hx, hns⟩
        exact ⟨List.mem_cons_of_mem _ hx, hns⟩
      · rintro ⟨hx, hns⟩
        rcases List.mem_cons.mp hx with rfl | hx
        · exact absurd hy hns
        · exact ⟨hx, hns⟩
    · simp only [dedupAux, if_neg hy, List.mem_cons, ih]
      constructor
      · rintro (rfl | ⟨hx, hns⟩)
        · exact ⟨Or.inl rfl, hy⟩
        · exact ⟨Or.inr hx, fun hc => hns (Or.inr hc)⟩
      · rintro ⟨rfl | hx, hns⟩
        · exact Or.inl rfl
        · by_cases hxy : x = y
          · exact Or.inl hxy
          · exact Or.inr ⟨hx, by simp [List.mem_cons, hxy, hns]⟩

/-- `SELECT DISTINCT` keeps exactly the underlying value set. -/
theorem mem_sqlDistinct [DecidableEq α] (l : List α) (x : α) :
    x ∈ sqlDistinct l ↔ x ∈ l := by
  simp [sqlDistinct, mem_dedupAux]

/-- Deduplicating a nonempty constant list yields the single value. -/
theorem dedupAux_all_mem [DecidableEq α] :
    ∀ (l seen : List α), (∀ y ∈ l, y ∈ seen) → dedupAux l seen = [] := by
  intro l
  induction l with
  | nil => intro seen _; rfl
  | cons y ys ih =>
    intro seen h
    have hy : y ∈ seen := h y (List.mem_cons_self _ _)
    simp only [dedupAux, if_pos hy]
    exact ih seen (fun z hz => h z (List.mem_cons_of_mem _ hz))

/-- `SELECT DISTINCT` of a nonempty list of copies of `x` is `[x]`. -/
theorem sqlDistinct_all_eq [DecidableEq α] (l : List α) (x : α)
    (hne : l ≠ []) (hall : ∀ y ∈ l, y = x) : sqlDistinct l = [x] := by
  cases l with
  | nil => exact absurd rfl hne
  | cons y ys =>
    have hy : y = x := hall y (List.mem_cons_self _ _)
    subst hy
    simp only [sqlDistinct, dedupAux, List.not_mem_nil, if_neg]
    rw [dedupAux_all_mem ys [y] (fun z hz => by
      have := hall z (List.mem_cons_of_mem _ hz)
      simp [this])]
    simp

/-- Characterisation of the joined relation: a row is in the join iff
its five components are stored and linked by the three foreign keys. -/
theorem mem_joinRows (db : Store) (r : JoinRow) :
    r ∈ joinRows db ↔
      r.jgw ∈ db.jgws ∧ r.mdd ∈ db.mdds ∧ r.mdd.id = r.jgw.md_directory ∧
      r.dbf ∈ db.dbfs ∧ r.dbf.md_directory = r.mdd.id ∧
      r.prj ∈ db.prjs ∧ r.prj.md_directory = r.mdd.id ∧
      r.ax ∈ db.axes ∧ r.ax.prj = r.prj.id := by
  obtain ⟨j, m, d, p, a⟩ := r
  simp only [joinRows, List.mem_flatMap, List.mem_map, List.mem_filter]
  constructor
  · rintro ⟨j', hj', m', ⟨hm', hmid⟩, d', ⟨hd', hdid⟩, p', ⟨hp', hpid⟩,
      a', ⟨ha', haid⟩, heq⟩
    cases heq
    exact ⟨hj', hm', by simpa using hmid, hd', by simpa using hdid,
      hp', by simpa using hpid, ha', by simpa using haid⟩
  · rintro ⟨hj, hm, hmid, hd, hdid, hp, hpid, ha, haid⟩
    exact ⟨j, hj, m, ⟨hm, by simpa using hmid⟩, d, ⟨hd, by simpa using hdid⟩,
      p, ⟨hp, by simpa using hpid⟩, a, ⟨ha, by simpa using haid⟩, rfl⟩

-- ===========================================================================
-- Concrete fixtures used by the claim theorems
-- ===========================================================================

/-- A metadata directory row. -/
def mddRow1 : MDDRow :=
  { id := 1, date_str := "2024-01-01", path_str := "base/2024-01-01/metadata" }

/-- The one observation record whose satellite is `Landsat-8`. -/
def dbfLandsat : DBFRow :=
  { id := 1, md_directory := 1, batch := "220", tarsize := 1024,
    satellite := "Landsat-8", sensorid := "OLI", acquisitio := some "2024-01-01",
    cloudperce := 5, orbitid := 7, scenepath := 229, scenerow := 82 }

/-- A second observation record in the same directory, different
satellite. -/
def dbfSentinel : DBFRow :=
  { dbfLandsat with id := 2, satellite := "Sentinel-2", cloudperce := 10 }

/-- A third observation record, used by the statistics fixture. -/
def dbfAqua : DBFRow :=
  { dbfLandsat with id := 3, satellite := "Aqua", cloudperce := 0 }

/-- The directory's projection definition. -/
def prjRow1 : PRJRow :=
  { id := 1, md_directory := 1, schema := "proj-schema", type := "GeographicCRS",
    name := "WGS 84", datum_type := "GeodeticReferenceFrame",
    datum_name := "World Geodetic System 1984", datum_ellipsoid_name := "WGS 84",
    datum_ellipsoid_semi_major_axis := 6378137,
    datum_ellipsoid_inverse_flattening := 298,
    datum_id_authority := "EPSG", datum_id_code := 4326,
    coordinate_system_subtype := "ellipsoidal" }

/-- First coordinate axis. -/
def axisRow1 : AxisRow :=
  { id := 1, prj := 1, name := "Geodetic latitude", abbreviation := "Lat",
    direction := "north", unit_type := "AngularUnit", unit_name := "degree",
    unit_conversion_factor := 1 }

/-- Second coordinate axis of the same projection. -/
def axisRow2 : AxisRow :=
  { axisRow1 with
      id := 2
      name := "Geodetic longitude"
      abbreviation := "Lon"
      direction := "east" }

/-- The single georeferencing file of the directory. -/
def jgwRow1 : JGWRow :=
  { id := 1, md_directory := 1, path := "base/2024-01-01/metadata/scene.jgw",
    jpg := "base/2024-01-01/metadata/scene.jpg", scale_x := 30,
    rotation_y := 0, rotation_x := 0, scale_y := -30,
    upper_left_x := 100, upper_left_y := 200 }

/-- The store of the query-claim scenario: one directory holding exactly
one `Landsat-8` observation record (and a second record for another
satellite), a projection with two axes, and one georeferencing file. -/
def storeC1 : Store :=
  { mdds := [mddRow1], dbfs := [dbfLandsat, dbfSentinel], prjs := [prjRow1],
    axes := [axisRow1, axisRow2], jgws := [jgwRow1] }

-- ===========================================================================
-- C3: get-or-create is an idempotent upsert keyed on the date token
-- ===========================================================================

/-- Claim C3: re-running the directory get-or-create with the same
date-token (the parent directory's name) and any path returns the row
created by the first call, adds no second row, and the stored path stays
the one from the first call. -/
theorem get_or_create_mdir_idempotent_upsert
    (db : Store) (pA pB : PyPath)
    (hkey : pB.parent.name = pA.parent.name)
    (hfresh : ∀ r ∈ db.mdds, r.date_str ≠ pA.parent.name) :
    (get_or_create_mdir (get_or_create_mdir db pA).2 pB).1 =
      (get_or_create_mdir db pA).1 ∧
    (get_or_create_mdir (get_or_create_mdir db pA).2 pB).2 =
      (get_or_create_mdir db pA).2 ∧
    (get_or_create_mdir db pA).1.path_str = pA.str ∧
    (get_or_create_mdir db pA).2.mdds.length = db.mdds.length + 1 := by
  have hfind : db.mdds.find? (fun r => r.date_str = pA.parent.name) = none := by
    rw [List.find?_eq_none]
    intro r hr
    simpa using hfresh r hr
  have h1 : get_or_create_mdir db pA =
      ({ id := nextId (db.mdds.map MDDRow.id), date_str := pA.parent.name,
         path_str := pA.str },
       { db with mdds := db.mdds ++
          [{ id := nextId (db.mdds.map MDDRow.id), date_str := pA.parent.name,
             path_str := pA.str }] }) := by
    simp [get_or_create_mdir, hfind]
  rw [h1]
  have hfind2 : (db.mdds ++
      [{ id := nextId (db.mdds.map MDDRow.id), date_str := pA.parent.name,
         path_str := pA.str : MDDRow }]).find?
        (fun r => r.date_str = pB.parent.name) =
      some { id := nextId (db.mdds.map MDDRow.id), date_str := pA.parent.name,
             path_str := pA.str } := by
    rw [List.find?_append]
    have : db.mdds.find? (fun r => r.date_str = pB.parent.name) = none := by
      rw [List.find?_eq_none]
      intro r hr
      rw [hkey]
      simpa using hfresh r hr
    rw [this]
    simp [List.find?, hkey]
  constructor
  · simp only [get_or_create_mdir]
    rw [hfind2]
  · constructor
    · simp only [get_or_create_mdir]
      rw [hfind2]
    · exact ⟨rfl, by simp⟩

/-- Witness for C3 at a concrete pair of paths sharing the date-token
parent `2024-01-01`. -/
theorem get_or_create_mdir_idempotent_upsert_witness :
    (get_or_create_mdir
        (get_or_create_mdir { } ⟨["base", "2024-01-01", "metadata"]⟩).2
        ⟨["other", "2024-01-01", "meta"]⟩).1 =
      (get_or_create_mdir { } ⟨["base", "2024-01-01", "metadata"]⟩).1 ∧
    (get_or_create_mdir
        (get_or_create_mdir { } ⟨["base", "2024-01-01", "metadata"]⟩).2
        ⟨["other", "2024-01-01", "meta"]⟩).2 =
      (get_or_create_mdir { } ⟨["base", "2024-01-01", "metadata"]⟩).2 ∧
    (get_or_create_mdir { } ⟨["base", "2024-01-01", "metadata"]⟩).1.path_str =
      (⟨["base", "2024-01-01", "metadata"]⟩ : PyPath).str ∧
    (get_or_create_mdir { } ⟨["base", "2024-01-01", "metadata"]⟩).2.mdds.length =
      (Store.mk [] [] [] [] []).mdds.length + 1 :=
  get_or_create_mdir_idempotent_upsert { } ⟨["base", "2024-01-01", "metadata"]⟩
    ⟨["other", "2024-01-01", "meta"]⟩ (by decide)
    (by intro r hr; simp at hr)

-- ===========================================================================
-- C4: missing paired image fails validation and persists nothing
-- ===========================================================================

/-- Claim C4: when the paired raster image of a georeferencing file does
not exist, `_store_jgw` raises the validation `ValueError` and leaves
the store — in particular its `JGW` rows — exactly as it was. -/
theorem store_jgw_missing_jpg_fails_without_persisting
    (fs : FileSys) (db : Store) (mdir_path jgw_path : PyPath)
    (hjpg : fs.existsPath (jgw_path.with_suffix "jpg").str = false) :
    (_store_jgw fs db mdir_path jgw_path).1 = db ∧
    (_store_jgw fs db mdir_path jgw_path).1.jgws = db.jgws ∧
    (_store_jgw fs db mdir_path jgw_path).2 =
      some (.validationError ("Missing jpg path for file " ++ jgw_path.str)) := by
  simp [_store_jgw, hjpg]

/-- Witness for C4: an empty filesystem holds no `scene.jpg`, so storing
`scene.jgw` fails with the validation error and changes nothing. -/
theorem store_jgw_missing_jpg_fails_without_persisting_witness :
    (_store_jgw ⟨[]⟩ storeC1 ⟨["base", "2024-01-01", "metadata"]⟩
        ⟨["base", "2024-01-01", "metadata", "scene.jgw"]⟩).1 = storeC1 ∧
    (_store_jgw ⟨[]⟩ storeC1 ⟨["base", "2024-01-01", "metadata"]⟩
        ⟨["base", "2024-01-01", "metadata", "scene.jgw"]⟩).1.jgws = storeC1.jgws ∧
    (_store_jgw ⟨[]⟩ storeC1 ⟨["base", "2024-01-01", "metadata"]⟩
        ⟨["base", "2024-01-01", "metadata", "scene.jgw"]⟩).2 =
      some (.validationError ("Missing jpg path for file " ++
        (⟨["base", "2024-01-01", "metadata", "scene.jgw"]⟩ : PyPath).str)) :=
  store_jgw_missing_jpg_fails_without_persisting ⟨[]⟩ storeC1
    ⟨["base", "2024-01-01", "metadata"]⟩
    ⟨["base", "2024-01-01", "metadata", "scene.jgw"]⟩ (by decide)

-- ===========================================================================
-- C2: the `in` / `not in` operators are broken in the code
-- ===========================================================================

/-- Claim C2 (code bug): a `not in` condition parses, but binding it
calls the `operation_methods` entry `lambda a, b: opetor.not_(…)` whose
body names the undefined `opetor` (a typo for `operator`), so
compilation raises `NameError` for every store instead of producing the
negated-membership predicate.  (The `in` entry is also wrong: it applies
`operator.contains(field, value)`, asking whether the coerced value is a
member of the *field object* rather than whether the field's value is in
the collection.) -/
theorem not_in_query_raises_nameError_opetor (db : Store) :
    parse_simple_query "satellite not in ['Landsat-8']" =
      .ok [⟨"satellite", "not in", .list [.str "Landsat-8"]⟩] ∧
    compile_query [⟨"satellite", "not in", .list [.str "Landsat-8"]⟩] =
      .error (.nameError "opetor") ∧
    simple_search db "satellite not in ['Landsat-8']" =
      .error (.nameError "opetor") :=
  ⟨rfl, rfl, rfl⟩

-- ===========================================================================
-- C5: error taxonomy of compilation failures
-- ===========================================================================

/-- Counterexample to claim C5: the query string `"satellite =="`
matches `SIMPLE_QUERY_PATTERN` — the alternation picks the operator `=`
and the second `=` becomes the value group — so parsing succeeds with
the condition `satellite = "="` and no `QuerySyntaxError` is raised;
the full search then succeeds as well. -/
theorem satellite_double_equals_parses_without_error :
    parse_simple_query "satellite ==" = .ok [⟨"satellite", "=", .str "="⟩] ∧
    simple_search storeC1 "satellite ==" = .ok [] :=
  ⟨rfl, rfl⟩

/-- Claim C5 as amended: `"unknownfield = 1"` fails with the
unknown-field `ValueError`; `"satellite =="` is *not* a syntax error —
it parses as the condition `satellite = "="` — while a segment that
really fails the grammar, such as `"satellite ="` (no value character
remains for the `.+` group), fails with the query-syntax
`ValueError`. -/
theorem query_error_taxonomy (db : Store) :
    simple_search db "unknownfield = 1" =
      .error (.unknownFieldError "unknownfield") ∧
    parse_simple_query "satellite ==" = .ok [⟨"satellite", "=", .str "="⟩] ∧
    simple_search db "satellite =" =
      .error (.querySyntaxError "satellite =" "satellite =") :=
  ⟨rfl, rfl, rfl⟩

-- ===========================================================================
-- C8: comma and dot decimal separators both normalise to the same float
-- ===========================================================================

/-- The jgw fixture file for C8: six affine-parameter lines mixing comma
and dot decimal separators, plus the paired image. -/
def fsC8 : FileSys :=
  ⟨[("d/2024-01-01/m/scene.jgw",
     ["12,5", "12.5", "0,0", "0.0", "1,5", "2.5"]),
    ("d/2024-01-01/m/scene.jpg", [])]⟩

/-- Claim C8: `"12.5"` and `"12,5"` are both accepted and stored as the
float 12.5 — by `store_dbfreg` for the cloud-percentage column and by
`_store_jgw` for the six affine parameters (each line normalised with
`replace(",", ".", 1)` before `float`). -/
theorem numeric_text_comma_normalization
    (db : Store) (mdir : PyPath) (batch satellite sensorid : String)
    (acquisitio : Option String) :
    pyFloat (pyReplace1 "12,5" ',' '.') = .ok (25 / 2 : ℚ) ∧
    pyFloat (pyReplace1 "12.5" ',' '.') = .ok (25 / 2 : ℚ) ∧
    (∃ reg db', store_dbfreg db mdir batch "1024" satellite sensorid
        acquisitio "12,5" "7" "229" "82" = .ok (reg, db') ∧
      reg.cloudperce = 25 / 2) ∧
    (∃ reg db', store_dbfreg db mdir batch "1024" satellite sensorid
        acquisitio "12.5" "7" "229" "82" = .ok (reg, db') ∧
      reg.cloudperce = 25 / 2) ∧
    ((_store_jgw fsC8 { } ⟨["d", "2024-01-01", "m"]⟩
        ⟨["d", "2024-01-01", "m", "scene.jgw"]⟩).2 = none ∧
     (_store_jgw fsC8 { } ⟨["d", "2024-01-01", "m"]⟩
        ⟨["d", "2024-01-01", "m", "scene.jgw"]⟩).1.jgws.map
          (fun j => (j.scale_x, j.rotation_y, j.rotation_x, j.scale_y,
                     j.upper_left_x, j.upper_left_y)) =
       [(25 / 2, 25 / 2, 0, 0, 3 / 2, 5 / 2)]) := by
  have h125 : pyFloat "12.5" = (.ok (25 / 2 : ℚ) : Except PyErr ℚ) := by
    show (Except.ok (((1 : Int) : ℚ) *
      (((12 : Nat) : ℚ) + ((5 : Nat) : ℚ) / (10 ^ 1 : ℚ))) : Except PyErr ℚ) = _
    norm_num
  refine ⟨h125, h125, ⟨_, _, rfl, ?_⟩, ⟨_, _, rfl, ?_⟩, rfl, ?_⟩
  · show ((1 : Int) : ℚ) * (((12 : Nat) : ℚ) + ((5 : Nat) : ℚ) / (10 ^ 1 : ℚ)) = 25 / 2
    norm_num
  · show ((1 : Int) : ℚ) * (((12 : Nat) : ℚ) + ((5 : Nat) : ℚ) / (10 ^ 1 : ℚ)) = 25 / 2
    norm_num
  · have f125 : List.foldl (fun a c => a * 10 + (c.toNat - 48)) 0
        (List.takeWhile Char.isDigit ['1', '2', '.', '5']) = 12 := rfl
    have f00 : List.foldl (fun a c => a * 10 + (c.toNat - 48)) 0
        (List.takeWhile Char.isDigit ['0', '.', '0']) = 0 := rfl
    have f15 : List.foldl (fun a c => a * 10 + (c.toNat - 48)) 0
        (List.takeWhile Char.isDigit ['1', '.', '5']) = 1 := rfl
    have f25 : List.foldl (fun a c => a * 10 + (c.toNat - 48)) 0
        (List.takeWhile Char.isDigit ['2', '.', '5']) = 2 := rfl
    have h5 : List.foldl (fun a c => a * 10 + (c.toNat - 48)) 0 ['5'] = 5 := rfl
    have h0 : List.foldl (fun a c => a * 10 + (c.toNat - 48)) 0 ['0'] = 0 := rfl
    simp only [List.map, Prod.mk.injEq, List.cons.injEq, and_true, f125, f00,
      f15, f25]
    simp [h5, h0]
    norm_num

-- ===========================================================================
-- C1: the canonical satellite query
-- ===========================================================================

/-- The compiled fragment of the condition `satellite = Landsat-8`. -/
def condSatellite : Cond :=
  ⟨⟨Kind.dbf, "satellite", FType.tChar⟩, "=", Val.s "Landsat-8"⟩

/-- Counterexample to claim C1: on the claim's own store — exactly one
observation record whose satellite attribute is the nine-character
string `Landsat-8`, with a georeferencing file in the same directory —
the query string `satellite = 'Landsat-8'` compiles but returns the
empty result, not the file: `CharField` coercion is `str`, so the
quotes stay part of the compared value and `'Landsat-8'` (with quotes)
matches no stored `Landsat-8`. -/
theorem quoted_satellite_query_returns_nothing :
    storeC1.dbfs.map DBFRow.satellite = ["Landsat-8", "Sentinel-2"] ∧
    storeC1.mdds = [mddRow1] ∧ storeC1.jgws = [jgwRow1] ∧
    jgwRow1.md_directory = mddRow1.id ∧
    simple_search storeC1 "satellite = 'Landsat-8'" = .ok [] ∧
    (Except.ok [] : Except PyErr (List JGWRow)) ≠ .ok [jgwRow1] := by
  refine ⟨rfl, rfl, rfl, rfl, rfl, ?_⟩
  intro h
  simp at h

/-- Claim C1 as amended: with the value written *without* quotes —
`satellite = Landsat-8` — the query compiles and returns exactly the
directory's one georeferencing file, exactly once, whatever other
observation records and axis entries the directory has. -/
theorem unquoted_satellite_query_returns_single_jgw_once
    (db : Store) (m : MDDRow) (d : DBFRow) (p : PRJRow) (a : AxisRow)
    (j : JGWRow)
    (hmdds : db.mdds = [m]) (hprjs : db.prjs = [p]) (hjgws : db.jgws = [j])
    (hjm : j.md_directory = m.id) (hpm : p.md_directory = m.id)
    (hd : d ∈ db.dbfs) (hdm : ∀ d' ∈ db.dbfs, d'.md_directory = m.id)
    (hdsat : d.satellite = "Landsat-8")
    (ha : a ∈ db.axes) (hap : ∀ a' ∈ db.axes, a'.prj = p.id) :
    simple_search db "satellite = Landsat-8" = .ok [j] := by
  show Except.ok (execSearch db [condSatellite]) = .ok [j]
  suffices hexec : execSearch db [condSatellite] = [j] by rw [hexec]
  have hpred : ∀ r : JoinRow, (evalCond condSatellite r = true) ↔
      r.dbf.satellite = "Landsat-8" := by
    intro r
    simp [evalCond, condSatellite, fieldValOn, dbfFieldVal, sqlEq, valNum]
  apply sqlDistinct_all_eq
  · have hR : (⟨j, m, d, p, a⟩ : JoinRow) ∈ joinRows db := by
      rw [mem_joinRows]
      refine ⟨?_, ?_, ?_, hd, hdm d hd, ?_, hpm, ha, hap a ha⟩
      · rw [hjgws]; exact List.mem_singleton.mpr rfl
      · rw [hmdds]; exact List.mem_singleton.mpr rfl
      · exact hjm.symm
      · rw [hprjs]; exact List.mem_singleton.mpr rfl
    have : (j : JGWRow) ∈ ((joinRows db).filter
        (fun r => [condSatellite].all (fun c => evalCond c r))).map JoinRow.jgw := by
      refine List.mem_map.mpr ⟨⟨j, m, d, p, a⟩, ?_, rfl⟩
      refine List.mem_filter.mpr ⟨hR, ?_⟩
      simp only [List.all_cons, List.all_nil, Bool.and_true]
      exact (hpred _).mpr hdsat
    intro hnil
    rw [hnil] at this
    exact List.not_mem_nil _ this
  · intro y hy
    obtain ⟨r, hrf, rfl⟩ := List.mem_map.mp hy
    have hrj := (List.mem_filter.mp hrf).1
    have := ((mem_joinRows db r).mp hrj).1
    rw [hjgws] at this
    exact List.mem_singleton.mp this

/-- Witness for the amended C1 at the concrete store `storeC1` (two
observation records, two axis entries, one georeferencing file). -/
theorem unquoted_satellite_query_returns_single_jgw_once_witness :
    simple_search storeC1 "satellite = Landsat-8" = .ok [jgwRow1] :=
  unquoted_satellite_query_returns_single_jgw_once storeC1 mddRow1 dbfLandsat
    prjRow1 axisRow1 jgwRow1 rfl rfl rfl rfl rfl
    (by simp [storeC1]) (by intro d' hd'; fin_cases hd' <;> rfl) rfl
    (by simp [storeC1]) (by intro a' ha'; fin_cases ha' <;> rfl)

-- ===========================================================================
-- C9: the executor's joins are inner joins
-- ===========================================================================

/-- Claim C9: whatever the compiled predicate, an executed search only
ever returns a georeferencing file whose directory exists and also has
at least one observation record and a projection definition with at
least one axis entry — the four joins are inner joins, so a file in a
directory missing any related row is never returned. -/
theorem simple_search_joins_are_inner
    (db : Store) (conds : List Cond) (j : JGWRow)
    (hmem : j ∈ execSearch db conds) :
    (∃ m ∈ db.mdds, m.id = j.md_directory) ∧
    (∃ d ∈ db.dbfs, d.md_directory = j.md_directory) ∧
    (∃ p ∈ db.prjs, p.md_directory = j.md_directory ∧
      ∃ a ∈ db.axes, a.prj = p.id) := by
  have hj : j ∈ ((joinRows db).filter
      (fun r => conds.all (fun c => evalCond c r))).map JoinRow.jgw := by
    have := (mem_sqlDistinct _ _).mp hmem
    exact this
  obtain ⟨r, hrf, rfl⟩ := List.mem_map.mp hj
  have hrj := (List.mem_filter.mp hrf).1
  obtain ⟨hjg, hm, hmid, hd, hdid, hp, hpid, ha, haid⟩ :=
    (mem_joinRows db r).mp hrj
  exact ⟨⟨r.mdd, hm, hmid⟩, ⟨r.dbf, hd, by rw [hdid, hmid]⟩,
    ⟨r.prj, hp, by rw [hpid, hmid], ⟨r.ax, ha, haid⟩⟩⟩

/-- Witness for C9: the fixture search result contains its one file, and
the three families of related rows are exhibited. -/
theorem simple_search_joins_are_inner_witness :
    (∃ m ∈ storeC1.mdds, m.id = jgwRow1.md_directory) ∧
    (∃ d ∈ storeC1.dbfs, d.md_directory = jgwRow1.md_directory) ∧
    (∃ p ∈ storeC1.prjs, p.md_directory = jgwRow1.md_directory ∧
      ∃ a ∈ storeC1.axes, a.prj = p.id) :=
  simple_search_joins_are_inner storeC1 [condSatellite] jgwRow1
    (by rw [show execSearch storeC1 [condSatellite] = [jgwRow1] from rfl]
        exact List.mem_singleton.mpr rfl)

-- ===========================================================================
-- C6 / C10: the statistics engine
-- ===========================================================================

/-- The statistics fixture: three observation records with cloud
percentages 5, 10 and 0. -/
def storeC6 : Store :=
  { mdds := [mddRow1], dbfs := [dbfLandsat, dbfSentinel, dbfAqua],
    prjs := [prjRow1], axes := [axisRow1], jgws := [jgwRow1] }

/-- A store holding a single observation record (value set of size
one). -/
def storeSingle : Store :=
  { dbfs := [dbfLandsat] }

/-- Helper: whatever the store, a numeric `field_info` result whose
distinct-value count is at most one reports a standard deviation of
zero (`st.stdev` is only called behind the `len(query) > 1` guard). -/
theorem field_info_small_count_stdev_zero (db : Store) (fname : String)
    (info : FieldInfo) (ns : NumStats)
    (hinfo : field_info db fname = .ok info) (hstats : info.stats = .nums ns)
    (hcount : ns.count ≤ 1) : ns.stdSq = 0 := by
  unfold field_info at hinfo
  cases hcat : get_searcheable_fields fname with
  | none => rw [hcat] at hinfo; cases hinfo
  | some f =>
    rw [hcat] at hinfo
    dsimp only at hinfo
    cases hft : f.ftype with
    | tChar =>
      rw [hft] at hinfo
      dsimp only at hinfo
      cases hinfo
      simp at hstats
    | tDate =>
      rw [hft] at hinfo
      dsimp only at hinfo
      cases hinfo
      simp at hstats
    | tInt =>
      rw [hft] at hinfo
      dsimp only at hinfo
      simp only [bind, Except.bind] at hinfo
      cases hmn : pyMin ((sqlDistinct (allFieldVals db f)).map valNumD) with
      | error e => rw [hmn] at hinfo; cases hinfo
      | ok mn =>
        rw [hmn] at hinfo
        dsimp only at hinfo
        cases hmx : pyMax ((sqlDistinct (allFieldVals db f)).map valNumD) with
        | error e => rw [hmx] at hinfo; cases hinfo
        | ok mx =>
          rw [hmx] at hinfo
          dsimp only at hinfo
          cases hinfo
          rw [Stats.nums.injEq] at hstats
          subst hstats
          simp only at hcount
          simp [hcount, Nat.lt_irrefl]
    | tFloat =>
      rw [hft] at hinfo
      dsimp only at hinfo
      simp only [bind, Except.bind] at hinfo
      cases hmn : pyMin ((sqlDistinct (allFieldVals db f)).map valNumD) with
      | error e => rw [hmn] at hinfo; cases hinfo
      | ok mn =>
        rw [hmn] at hinfo
        dsimp only at hinfo
        cases hmx : pyMax ((sqlDistinct (allFieldVals db f)).map valNumD) with
        | error e => rw [hmx] at hinfo; cases hinfo
        | ok mx =>
          rw [hmx] at hinfo
          dsimp only at hinfo
          cases hinfo
          rw [Stats.nums.injEq] at hstats
          subst hstats
          simp only at hcount
          simp [hcount, Nat.lt_irrefl]

/-- Claim C6: on the value set {0, 5, 10} (stored as 5, 10, 0),
`field_info("cloudperce")` reports count 3, unique count 3, min 0,
max 10, mean 5, median 5, and sample standard deviation 5 (its square,
the exactly-representable sample variance, is 25); and on any numeric
field whose distinct-value count is at most 1, the reported standard
deviation is 0. -/
theorem field_info_cloudperce_stats :
    (∃ ns : NumStats, field_info storeC6 "cloudperce" =
        .ok ⟨"cloudperce", Kind.dbf, FType.tFloat, .nums ns⟩ ∧
      ns.count = 3 ∧ ns.uniques = 3 ∧ ns.vmin = 0 ∧ ns.vmax = 10 ∧
      ns.na = false ∧ ns.mean = 5 ∧ ns.median = 5 ∧ ns.stdSq = 25) ∧
    (∀ (db : Store) (fname : String) (info : FieldInfo) (ns : NumStats),
      field_info db fname = .ok info → info.stats = .nums ns →
      ns.count ≤ 1 → ns.stdSq = 0) := by
  constructor
  · refine ⟨_, rfl, rfl, rfl, ?_, ?_, rfl, ?_, ?_, ?_⟩
    · show List.foldl min (5 : ℚ) [10, 0] = 0
      simp only [List.foldl]
      norm_num
    · show List.foldl max (5 : ℚ) [10, 0] = 10
      simp only [List.foldl]
      norm_num
    · show qMean [5, 10, 0] = 5
      norm_num [qMean]
    · show qMedian [5, 10, 0] = 5
      have hs : sortQ [5, 10, 0] = [0, 5, 10] := by
        norm_num [sortQ, insertSorted]
      norm_num [qMedian, hs]
    · show (if 3 > 1 then qVarSample [5, 10, 0] else 0) = 25
      norm_num [qVarSample, qMean]
  · exact fun db fname info ns h1 h2 h3 =>
      field_info_small_count_stdev_zero db fname info ns h1 h2 h3

/-- Witness for C6 at the single-value store: the reported standard
deviation of a one-element value set is 0. -/
theorem field_info_cloudperce_stats_witness :
    (⟨1, 1, 5, 5, false, qMean [5], qMedian [5], 0⟩ : NumStats).stdSq = 0 :=
  field_info_cloudperce_stats.2 storeSingle "cloudperce"
    ⟨"cloudperce", Kind.dbf, FType.tFloat,
      .nums ⟨1, 1, 5, 5, false, qMean [5], qMedian [5], 0⟩⟩
    ⟨1, 1, 5, 5, false, qMean [5], qMedian [5], 0⟩ rfl rfl (by decide)

/-- Claim C10: with zero rows stored for the field's entity kind, a
numeric field's `field_info` raises (`min()` of an empty sequence, a
`ValueError`) instead of returning a stats mapping, while a text
field's `field_info` returns count 0, unique count 0 and an empty
sample-value list. -/
theorem field_info_empty_numeric_raises_text_returns
    (db : Store) (fname : String) (f : FieldRef)
    (hf : get_searcheable_fields fname = some f)
    (hempty : allFieldVals db f = []) :
    ((f.ftype = .tInt ∨ f.ftype = .tFloat) →
      field_info db fname = .error .emptySequenceError) ∧
    (f.ftype = .tChar →
      field_info db fname = .ok ⟨fname, f.kind, f.ftype, .texts ⟨0, 0, []⟩⟩) := by
  constructor
  · rintro (h | h) <;>
      simp [field_info, hf, hempty, h, sqlDistinct, dedupAux, pyMin,
        bind, Except.bind]
  · intro h
    simp [field_info, hf, hempty, h, sqlDistinct, dedupAux]

/-- Witness for C10 on the empty store: `cloudperce` (numeric) raises,
`satellite` (text) reports empty statistics. -/
theorem field_info_empty_numeric_raises_text_returns_witness :
    field_info { } "cloudperce" = .error .emptySequenceError ∧
    field_info { } "satellite" =
      .ok ⟨"satellite", Kind.dbf, FType.tChar, .texts ⟨0, 0, []⟩⟩ :=
  ⟨(field_info_empty_numeric_raises_text_returns { } "cloudperce"
      ⟨Kind.dbf, "cloudperce", FType.tFloat⟩ rfl rfl).1 (Or.inr rfl),
   (field_info_empty_numeric_raises_text_returns { } "satellite"
      ⟨Kind.dbf, "satellite", FType.tChar⟩ rfl rfl).2 rfl⟩

-- ===========================================================================
-- C7: the flattener terminates and honours both cycle guards
-- ===========================================================================

/-- Helper: a flattening call that returns an actual dict has recorded
the instance in the `visited` set and its kind in the
`upper_level_model` set of the resulting state. -/
theorem model_to_dict_fuel_inserts (db : Store) (fuel : Nat) (ek : EKey)
    (v : Finset EKey) (u : Finset Kind) (d : DVal) (v2 : Finset EKey)
    (u2 : Finset Kind)
    (h : model_to_dict_fuel db (fuel + 1) ek v u = some (some d, v2, u2)) :
    ek ∈ v2 ∧ ek.1 ∈ u2 := by
  rw [model_to_dict_fuel.eq_2] at h
  by_cases hg : ek ∈ v ∨ ek.1 ∈ u
  · rw [if_pos hg] at h
    cases h
  · rw [if_neg hg] at h
    cases hrow : rowData db ek with
    | none => rw [hrow] at h; cases h
    | some data0 =>
      rw [hrow] at h
      dsimp only at h
      cases hfwd : rowFwd db ek with
      | none =>
        rw [hfwd] at h
        dsimp only at h
        cases h1 : backrefs_fuel db fuel (backrefKinds ek.1) ek
            (insert ek v) (insert ek.1 u) with
        | none => rw [h1] at h; cases h
        | some r3 =>
          obtain ⟨extra, v3, u3⟩ := r3
          rw [h1] at h
          dsimp only at h
          cases h
          have hsub := backrefs_fuel_subset db fuel
            (children_fuel_subset db fuel (model_to_dict_fuel_subset db fuel))
            _ ek _ _ _ h1
          exact ⟨hsub.1 (Finset.mem_insert_self _ _),
                 hsub.2 (Finset.mem_insert_self _ _)⟩
      | some fp =>
        obtain ⟨fname, pk⟩ := fp
        rw [hfwd] at h
        dsimp only at h
        cases h1 : model_to_dict_fuel db fuel pk (insert ek v) (insert ek.1 u) with
        | none => rw [h1] at h; cases h
        | some r2 =>
          obtain ⟨rd, v2', u2'⟩ := r2
          rw [h1] at h
          dsimp only at h
          cases h2 : backrefs_fuel db fuel (backrefKinds ek.1) ek v2' u2' with
          | none => rw [h2] at h; cases h
          | some r3 =>
            obtain ⟨extra, v3, u3⟩ := r3
            rw [h2] at h
            dsimp only at h
            cases h
            have hs1 := model_to_dict_fuel_subset db fuel pk _ _ _ h1
            have hs2 := backrefs_fuel_subset db fuel
              (children_fuel_subset db fuel (model_to_dict_fuel_subset db fuel))
              _ ek _ _ _ h2
            exact ⟨hs2.1 (hs1.1 (Finset.mem_insert_self _ _)),
                   hs2.2 (hs1.2 (Finset.mem_insert_self _ _))⟩

/-- Claim C7: flattening over the fixed five-kind schema terminates for
every store, every starting instance and every state of the shared
sets — any fuel of at least six (one more than the number of entity
kinds) yields the same defined result — and both guards hold: an
instance already in `visited`, or whose kind is already in
`upper_level_model`, flattens to `None` with the state untouched
(so it is never expanded a second time nor re-descended into), and a
productive flattening records its instance and kind in the output sets,
so any later occurrence inside the same top-level call is guarded. -/
theorem model_to_dict_terminates_with_cycle_guards
    (db : Store) (ek : EKey) (v : Finset EKey) (u : Finset Kind)
    (fuel : Nat) (hfuel : 6 ≤ fuel) :
    model_to_dict_fuel db fuel ek v u = model_to_dict_fuel db 6 ek v u ∧
    (∃ r, model_to_dict_fuel db 6 ek v u = some r) ∧
    ((ek ∈ v ∨ ek.1 ∈ u) →
      model_to_dict_fuel db fuel ek v u = some (none, v, u)) ∧
    (∀ (d : DVal) (v2 : Finset EKey) (u2 : Finset Kind),
      model_to_dict_fuel db fuel ek v u = some (some d, v2, u2) →
      ek ∈ v2 ∧ ek.1 ∈ u2) := by
  have hcard : Fintype.card Kind = 5 := rfl
  have hbound : Fintype.card Kind - u.card < 6 := by omega
  obtain ⟨r, h6⟩ := model_to_dict_fuel_sufficient db 6 ek v u hbound
  have hfe : model_to_dict_fuel db fuel ek v u = some r :=
    model_to_dict_fuel_le db 6 fuel hfuel ek v u r h6
  obtain ⟨f, rfl⟩ : ∃ f, fuel = f + 1 := ⟨fuel - 1, by omega⟩
  refine ⟨by rw [hfe, h6], ⟨r, h6⟩, ?_, ?_⟩
  · intro hg
    rw [model_to_dict_fuel.eq_2, if_pos hg]
  · intro d v2 u2 h
    exact model_to_dict_fuel_inserts db f ek v u d v2 u2 h

/-- Witness for C7 at the fixture store, flattening its georeferencing
file with fuels 7 and 6 and fresh sets. -/
theorem model_to_dict_terminates_with_cycle_guards_witness :
    model_to_dict_fuel storeC1 7 (Kind.jgw, 1) ∅ ∅ =
      model_to_dict_fuel storeC1 6 (Kind.jgw, 1) ∅ ∅ ∧
    (∃ r, model_to_dict_fuel storeC1 6 (Kind.jgw, 1) ∅ ∅ = some r) ∧
    (((Kind.jgw, 1) ∈ (∅ : Finset EKey) ∨ Kind.jgw ∈ (∅ : Finset Kind)) →
      model_to_dict_fuel storeC1 7 (Kind.jgw, 1) ∅ ∅ = some (none, ∅, ∅)) ∧
    (∀ (d : DVal) (v2 : Finset EKey) (u2 : Finset Kind),
      model_to_dict_fuel storeC1 7 (Kind.jgw, 1) ∅ ∅ = some (some d, v2, u2) →
      (Kind.jgw, 1) ∈ v2 ∧ (Kind.jgw, 1).1 ∈ u2) :=
  model_to_dict_terminates_with_cycle_guards storeC1 (Kind.jgw, 1) ∅ ∅ 7
    (by decide)
